import Mathlib

set_option maxHeartbeats 1000000

namespace NbdeClevis

/-- JSON values as manipulated by `nbde_client_clevis.py`. Objects keep
insertion order, mirroring CPython dicts (which preserve insertion order and
have unique keys). -/
inductive Json where
  | null : Json
  | bool : Bool → Json
  | num : Int → Json
  | str : String → Json
  | arr : List Json → Json
  | obj : List (String × Json) → Json

mutual

/-- Structural boolean equality on JSON values. -/
def beqJson : Json → Json → Bool
  | .null, .null => true
  | .bool a, .bool b => a == b
  | .num a, .num b => a == b
  | .str a, .str b => a == b
  | .arr a, .arr b => beqJsonList a b
  | .obj a, .obj b => beqJsonObj a b
  | _, _ => false

def beqJsonList : List Json → List Json → Bool
  | [], [] => true
  | x :: xs, y :: ys => beqJson x y && beqJsonList xs ys
  | _, _ => false

def beqJsonObj : List (String × Json) → List (String × Json) → Bool
  | [], [] => true
  | (k, v) :: xs, (l, u) :: ys => k == l && beqJson v u && beqJsonObj xs ys
  | _, _ => false

end

instance : BEq Json := ⟨beqJson⟩

/-- The clevis LUKSMeta UUID constant from the module. -/
def CLEVIS_UUID : String := "cb6e8904-81ff-40da-a84a-07ab9ab5715e"

/-- Characters stripped by Python's `str.rstrip()` (the common whitespace). -/
def pyIsSpace (c : Char) : Bool :=
  c = ' ' || c = '\t' || c = '\n' || c = '\r' || c = Char.ofNat 11 || c = Char.ofNat 12

/-- Python `str.rstrip()`. -/
def pyRstrip (s : String) : String :=
  String.mk ((s.toList.reverse.dropWhile pyIsSpace).reverse)

/-- Python string comparison on code points (one character). -/
def charLtB (a b : Char) : Bool := a.toNat < b.toNat

/-- Python `<` on strings: lexicographic over code points. -/
def charListLtB : List Char → List Char → Bool
  | [], [] => false
  | [], _ :: _ => true
  | _ :: _, [] => false
  | c :: cs, d :: ds =>
    if c.toNat < d.toNat then true
    else if c.toNat = d.toNat then charListLtB cs ds
    else false

/-- Python `a < b` on strings. -/
def strLtB (a b : String) : Bool := charListLtB a.toList b.toList

/-- Stable insertion of a string into a (sorted) list, by Python's
lexicographic (code-point) string order; used to model `sorted()`. -/
def strInsert (x : String) : List String → List String
  | [] => [x]
  | y :: ys => if strLtB x y || x == y then x :: y :: ys else y :: strInsert x ys

/-- Python `sorted()` on a list of strings: stable ascending lexicographic
(code-point) order. -/
def pySorted : List String → List String
  | [] => []
  | x :: xs => strInsert x (pySorted xs)

/-- Lookup in an association list (first occurrence wins), as Python dict
lookup under the unique-key invariant. -/
def alookup (k : String) : List (String × α) → Option α
  | [] => none
  | (k', v) :: rest => if k = k' then some v else alookup k rest

/-- Python `d[k] = v` on a dict: replaces in place if the key exists,
otherwise appends. -/
def aset (k : String) (v : α) : List (String × α) → List (String × α)
  | [] => [(k, v)]
  | (k', v') :: rest => if k = k' then (k, v) :: rest else (k', v') :: aset k v rest

/-- Python `d.pop(k, None)` effect on the dict (the removal). -/
def apop (k : String) : List (String × α) → List (String × α)
  | [] => []
  | (k', v') :: rest => if k = k' then rest else (k', v') :: apop k rest

/-- Insertion into a fingerprint set `keys[thp] = thp`, keeping the dict's
insertion order and key uniqueness. -/
def keyInsert (ks : List String) (k : String) : List String :=
  if ks.contains k then ks else ks ++ [k]

/-- Merge of one fingerprint dict into another, in iteration order. -/
def keyMerge (acc : List String) (more : List String) : List String :=
  more.foldl keyInsert acc

/-- Minimal JSON string escaping as done by `json.dumps` for the characters
that occur in this module's data. -/
def escStr (s : String) : String :=
  s.toList.foldl
    (fun acc c =>
      if c = '\\' then acc ++ "\\\\"
      else if c = '\x22' then acc ++ "\\\x22"
      else acc ++ String.singleton c) ""

mutual

/-- Python `json.dumps` with its default separators. -/
def dumpJson : Json → String
  | .null => "null"
  | .bool b => if b then "true" else "false"
  | .num n => toString n
  | .str s => "\x22" ++ escStr s ++ "\x22"
  | .arr l => "[" ++ dumpList l ++ "]"
  | .obj l => "\x7b" ++ dumpObj l ++ "\x7d"

def dumpList : List Json → String
  | [] => ""
  | [x] => dumpJson x
  | x :: y :: xs => dumpJson x ++ ", " ++ dumpList (y :: xs)

def dumpObj : List (String × Json) → String
  | [] => ""
  | [(k, v)] => "\x22" ++ escStr k ++ "\x22: " ++ dumpJson v
  | (k, v) :: y :: xs => "\x22" ++ escStr k ++ "\x22: " ++ dumpJson v ++ ", " ++ dumpObj (y :: xs)

end

/-- Stable insertion of an object entry by key order, for the canonical form
used to decide Python's order-insensitive dict equality. -/
def pairInsert (x : String × Json) : List (String × Json) → List (String × Json)
  | [] => [x]
  | y :: ys => if strLtB x.1 y.1 || x.1 == y.1 then x :: y :: ys else y :: pairInsert x ys

/-- Sort object entries by key (stable). -/
def pairSort : List (String × Json) → List (String × Json)
  | [] => []
  | x :: xs => pairInsert x (pairSort xs)

mutual

/-- Canonical form of a JSON value: object keys sorted recursively. Python's
`==` on dicts is insensitive to key order, so two values are `==` in Python
iff their canonical forms are structurally equal (under the unique-key
invariant maintained by this module's data). -/
def canonJson : Json → Json
  | .null => .null
  | .bool b => .bool b
  | .num n => .num n
  | .str s => .str s
  | .arr l => .arr (canonList l)
  | .obj l => .obj (pairSort (canonObj l))

def canonList : List Json → List Json
  | [] => []
  | x :: xs => canonJson x :: canonList xs

def canonObj : List (String × Json) → List (String × Json)
  | [] => []
  | (k, v) :: xs => (k, canonJson v) :: canonObj xs

end

/-- Python `==` on JSON values (dict comparison ignores key order). -/
def pyJsonEq (a b : Json) : Bool := beqJson (canonJson a) (canonJson b)

/-- Boolean prefix test on character lists. -/
def charListPrefix : List Char → List Char → Bool
  | [], _ => true
  | _ :: _, [] => false
  | c :: cs, d :: ds => c == d && charListPrefix cs ds

/-- Python `s.startswith(prefix)`. -/
def pyStartsWith (s pre : String) : Bool := charListPrefix pre.toList s.toList

/-- Python `needle in hay` on strings: substring containment. -/
def strContainsSub (hay needle : String) : Bool :=
  (List.range (hay.length + 1)).any (fun i => charListPrefix needle.toList (hay.toList.drop i))

/-- Python `k in j` for a string `k`: dict key test, list membership test,
substring test on strings; other receivers raise `TypeError`. -/
def pyContains (j : Json) (k : String) : Except String Bool :=
  match j with
  | .obj l => .ok (l.any (fun p => p.1 == k))
  | .arr l => .ok (l.contains (.str k))
  | .str s => .ok (strContainsSub s k)
  | _ => .error "TypeError: argument is not iterable"

/-- Python `j[k]` for a string key `k`: dict lookup (KeyError if missing),
`TypeError` on non-dict receivers. -/
def pyIndexS (j : Json) (k : String) : Except String Json :=
  match j with
  | .obj l =>
    match alookup k l with
    | some v => .ok v
    | none => .error ("KeyError: " ++ k)
  | _ => .error "TypeError: indices must be integers"

/-- Python `for x in j`: iterates list elements, dict keys, string characters;
raises `TypeError` otherwise. -/
def pyIterate (j : Json) : Except String (List Json) :=
  match j with
  | .arr l => .ok l
  | .obj l => .ok (l.map (fun p => .str p.1))
  | .str s => .ok (s.toList.map (fun c => .str (String.singleton c)))
  | _ => .error "TypeError: object is not iterable"

/-- Mutating external commands issued by the module against a device, as
recorded in the execution trace. Read-only commands (isLuks, luksDump,
luksmeta test/show/load, token export, open --test-passphrase, and all
jose/clevis/network calls) do not mutate any device and are not traced. -/
inductive Cmd where
  | luksmetaInitCmd (device : String)
  | luksmetaSaveCmd (device slot : String)
  | luksmetaWipeCmd (device slot : String)
  | tokenImportCmd (device : String)
  | tokenRemoveCmd (device tokenId : String)
  | addKeyCmd (device slot : String)
  | changeKeyCmd (device slot : String)
  | killSlotCmd (device slot : String)
  | removeKeyCmd (device : String)
deriving DecidableEq

/-- The state of one LUKS device, holding the parsed views of the external
tools' outputs: `luksType` is what `cryptsetup isLuks --type` reports,
`metaInit` whether the LUKS1 LUKSMeta side-car store is initialized
(`luksmeta test`), `slots` the occupied keyslots as listed by `luksDump`
(slot number string, in dump order, with the passphrase each slot currently
accepts), `meta1` the clevis-UUID LUKSMeta entries of a LUKS1 device,
`tokens` the LUKS2 tokens by token id (kept in ascending id order), and
`keyBits` the master-key entropy field of the dump (None when the dump has
no such line). -/
structure Device where
  luksType : Option String
  metaInit : Bool
  slots : List (String × String)
  meta1 : List (String × String)
  tokens : List (Nat × Json)
  keyBits : Option String

/-- The world: devices by path, key files by path, and the trace of mutating
commands issued so far. -/
structure World where
  devices : List (String × Device)
  keyfiles : List (String × String)
  trace : List Cmd

/-- Oracles for the external, device-independent tools the module shells out
to: the tang advertisement HTTP endpoint, the jose and clevis pipelines,
`json.loads` on externally produced text, and `pwmake`. Each returns `none`
where the tool would exit non-zero (or the HTTP status is not 200, or the
output is not parseable where the module parses it). -/
structure Env where
  fetchAdv : String → Option Json
  advKeys : String → Option (List Json)
  thumbprint : String → Option String
  decrypt : String → Option String
  encrypt : String → String → String → Option String
  decodeJweHdr : String → Option Json
  fmtJwe : Bool → String → Option String
  tokenJwe : String → Option String
  jsonLoads : String → Option Json
  pwmake : String → Option String

/-- State monad over the world, for the module code that cannot raise an
uncaught Python exception (it reports errors through returned error values,
never by raising). -/
def St (α : Type) : Type := World → α × World

instance : Monad St where
  pure a := fun w => (a, w)
  bind x f := fun w => f (x w).1 (x w).2

@[simp] theorem st_pure_apply (a : α) (w : World) : (pure a : St α) w = (a, w) := rfl

theorem st_bind_apply (x : St α) (f : α → St β) (w : World) :
    (x >>= f) w = f (x w).1 (x w).2 := rfl

/-- How `state`/`msg` pairs surface in the module result: a plain string
message, or (only for the `generate_config` failure re-raised by
`process_bind_operation` as `dict(msg=err)`) a whole error dict nested in
the msg field. -/
inductive ErrMsg where
  | plain (s : String) : ErrMsg
  | nested (s : String) : ErrMsg
deriving DecidableEq

/-- One entry of the module's `bindings` input list; `none` models a key
missing from the dict. -/
structure RawBinding where
  device : Option String
  state : Option String
  slot : Option Int
  threshold : Option Int
  password_temporary : Option Bool
  servers : Option (List String)
  encryption_password : Option String
  encryption_key : Option String
  encryption_key_src : Option String
deriving DecidableEq

/-- Payload of a raised `NbdeClientClevisError`. -/
structure ErrPayload where
  msg : ErrMsg
  original_bindings : Option (List RawBinding)
deriving DecidableEq

/-- Outcome of running a piece of the module: a value, a raised
`NbdeClientClevisError` (caught in `run_module`), or an uncaught Python
exception (TypeError/KeyError/ValueError/RecursionError), which kills the
whole module run. -/
inductive Res (α : Type) where
  | ok : α → Res α
  | raised : ErrPayload → Res α
  | crash : String → Res α

/-- State monad with Python-exception outcomes, for the code paths that can
raise. -/
def M (α : Type) : Type := World → Res α × World

instance : Monad M where
  pure a := fun w => (.ok a, w)
  bind x f := fun w =>
    match x w with
    | (.ok a, w') => f a w'
    | (.raised e, w') => (.raised e, w')
    | (.crash s, w') => (.crash s, w')

@[simp] theorem m_pure_apply (a : α) (w : World) : (pure a : M α) w = (.ok a, w) := rfl

theorem m_bind_apply (x : M α) (f : α → M β) (w : World) :
    (x >>= f) w =
      match x w with
      | (.ok a, w') => f a w'
      | (.raised e, w') => (.raised e, w')
      | (.crash s, w') => (.crash s, w') := rfl

theorem m_bind_ok {x : M α} {w w' : World} {a : α} (f : α → M β) (h : x w = (.ok a, w')) :
    (x >>= f) w = f a w' := by
  show (match x w with
       | (.ok a, w') => f a w'
       | (.raised e, w') => (.raised e, w')
       | (.crash s, w') => (.crash s, w')) = f a w'
  rw [h]

/-- Lift exception-free module code into the exception-aware monad. -/
def mLift (x : St α) : M α := fun w => (.ok (x w).1, (x w).2)

/-- An uncaught Python exception. -/
def mCrash (s : String) : M α := fun w => (.crash s, w)

/-- Raise `NbdeClientClevisError`. -/
def mRaise (e : ErrPayload) : M α := fun w => (.raised e, w)

/-- Lift a pure computation whose `.error` is an uncaught Python exception. -/
def mExc (x : Except String α) : M α := fun w =>
  match x with
  | .ok a => (.ok a, w)
  | .error s => (.crash s, w)

/-- Read a device's state (no command issued). -/
def readDev (device : String) : St (Option Device) := fun w => (alookup device w.devices, w)

/-- Replace a device's state. -/
def setDevW (device : String) (d : Device) (w : World) : World :=
  { w with devices := aset device d w.devices }

/-- Record a mutating command in the trace. -/
def logW (c : Cmd) (w : World) : World := { w with trace := w.trace ++ [c] }

/-- Embeds `initialize_device` composed into `get_luks_type`
(`nbde_client_clevis.py` lines 140-178): `cryptsetup isLuks` and
`isLuks --type` classify the device; for LUKS1, when `initialize` is set and
`luksmeta test` fails, `luksmeta init -f` is run (a mutating command that
initializes the empty side-car store). In this model `luksmeta init` always
exits 0, so `initialize_device` never returns an error. -/
def getLuksType (doInit : Bool) (device : String) : St (Option String × Option String) := fun w =>
  match alookup device w.devices with
  | none => ((none, some "cryptsetup: device not found"), w)
  | some d =>
    match d.luksType with
    | none => ((none, some "cryptsetup: not a LUKS device"), w)
    | some t =>
      if t = "luks1" then
        if doInit && !d.metaInit then
          ((some "luks1", none),
            logW (.luksmetaInitCmd device)
              (setDevW device { d with metaInit := true, meta1 := [] } w))
        else ((some "luks1", none), w)
      else if t = "luks2" then ((some "luks2", none), w)
      else ((none, some "Not possible to detect whether LUKS1 or LUKS2"), w)

/-- Embeds `get_jwe_luks1` (lines 181-205): `luksmeta show` must list the
slot as `<slot> active cb6e8904-…` (the clevis UUID), i.e. the keyslot is in
use and a clevis LUKSMeta entry exists, then `luksmeta load` returns the
stored blob, right-stripped. -/
def getJweLuks1 (device slot : String) : St (Option String × Option String) := fun w =>
  match alookup device w.devices with
  | none => ((none, some "luksmeta show failed"), w)
  | some d =>
    if !d.metaInit then ((none, some "luksmeta show failed"), w)
    else
      match (if (d.slots.map Prod.fst).contains slot then alookup slot d.meta1 else none) with
      | some data => ((some (pyRstrip data), none), w)
      | none =>
        ((none, some ("get_jwe_luks1: " ++ device ++ ":" ++ slot ++ " not clevis-bound")), w)

/-- Embeds `format_jwe` (lines 734-744): `jose jwe fmt [--compact]`, output
right-stripped. -/
def formatJweP (env : Env) (isCompact : Bool) (data : String) : Option String × Option String :=
  match env.fmtJwe isCompact data with
  | none => (none, some "jose jwe fmt failed")
  | some jwe => (some (pyRstrip jwe), none)

/-- Embeds `get_jwe_from_luks2_token` (lines 208-219): `jose fmt … --get jwe`
on the exported token text, then `format_jwe` with `--compact`. -/
def getJweFromLuks2Token (env : Env) (token : String) : Option String × Option String :=
  match env.tokenJwe token with
  | none => (none, some "get_jwe_from_luks2_token: jose fmt failed")
  | some jweObj =>
    match formatJweP env true jweObj with
    | (some jwe, none) => (some jwe, none)
    | (_, err) => (none, some ("get_jwe_from_luks2_token: " ++ err.getD ""))

/-- A LUKS2 token matches the `luksDump` pattern of `get_jwe_luks2` for a
slot iff its type is `clevis` and the first `Keyslot:` line under it shows
that slot. -/
def tokenMatches (slot : String) (tok : Json) : Bool :=
  match tok with
  | .obj l =>
    (match alookup "type" l with | some (.str t) => t == "clevis" | _ => false) &&
    (match alookup "keyslots" l with
     | some (.arr (k :: _)) => beqJson k (.str slot)
     | _ => false)
  | _ => false

/-- The token id the greedy `re.search` of `get_jwe_luks2` selects: the last
matching clevis token in the dump (token ids ascending). -/
def findClevisToken (slot : String) (toks : List (Nat × Json)) : Option (Nat × Json) :=
  toks.foldl (fun acc p => if tokenMatches slot p.2 then some p else acc) none

/-- Embeds `get_jwe_luks2` (lines 222-254): find the clevis token for the
slot in the `luksDump` output, `cryptsetup token export` it, and extract the
compact JWE from the token JSON. -/
def getJweLuks2 (env : Env) (device slot : String) :
    St (Option String × Option String × Option String) := fun w =>
  match alookup device w.devices with
  | none => ((none, none, some "get_jwe_luks2: luksDump failed"), w)
  | some d =>
    match findClevisToken slot d.tokens with
    | none =>
      ((none, none, some ("get_jwe_luks2: " ++ device ++ ":" ++ slot ++ " not clevis-bound")), w)
    | some (tid, tok) =>
      match getJweFromLuks2Token env (dumpJson tok) with
      | (some jwe, none) => ((some jwe, some (toString tid), none), w)
      | (_, err) => ((none, none, some ("get_jwe_luks2: " ++ err.getD "")), w)

/-- Embeds `get_jwe` (lines 257-268). -/
def getJwe (env : Env) (doInit : Bool) (device slot : String) :
    St (Option String × Option String) := do
  let (luks, err) ← getLuksType doInit device
  if err.isSome then return (none, err)
  else if luks = some "luks1" then getJweLuks1 device slot
  else do
    let (jwe, _, err2) ← getJweLuks2 env device slot
    return (jwe, err2)

/-- Embeds `is_slot_bound` (lines 271-278). -/
def isSlotBound (env : Env) (device slot : String) : St (Bool × Option String) := do
  let (_, err) ← getJwe env true device slot
  match err with
  | some e => return (false, some e)
  | none => return (true, none)

/-- The URL `download_adv` fetches, exactly as the code builds it (lines
285-291): prefix `http://` iff the server string does not start with the
four characters `http`, then append `/adv`. -/
def downloadAdvUrl (server : String) : String :=
  (if !pyStartsWith server "http" then "http://" ++ server else server) ++ "/adv"

/-- Embeds `download_adv` (lines 281-302): HTTP GET of the built URL; a
non-200 status or malformed JSON body is a fetch error. -/
def downloadAdv (env : Env) (server : String) : Option Json × Option String :=
  match env.fetchAdv (downloadAdvUrl server) with
  | none => (none, some "download_adv: fetch failed or malformed JSON")
  | some j => (some j, none)

/-- Embeds `keys_from_adv` (lines 316-352): extract `payload.keys` from the
dumped advertisement through jose; on failure there is no error, just an
empty key dict; each key is dumped and thumbprinted, thumbprint failures are
skipped. -/
def keysFromAdv (env : Env) (adv : Json) : List String :=
  match env.advKeys (dumpJson adv) with
  | none => []
  | some ks =>
    ks.foldl
      (fun acc key =>
        match env.thumbprint (dumpJson key) with
        | none => acc
        | some thp => keyInsert acc thp) []

/-- The per-server loop of `generate_config` (lines 364-374): download each
advertisement (aborting on the first failure), build the per-server tang
config, and merge each advertisement's key thumbprints. -/
def generateConfigLoop (env : Env) :
    List String → List Json × List String → (List Json × List String) × Option String
  | [], acc => (acc, none)
  | server :: rest, (cfgs, keys) =>
    match downloadAdv env server with
    | (some adv, _) =>
      generateConfigLoop env rest
        (cfgs ++ [Json.obj [("url", .str server), ("adv", adv)]],
         keyMerge keys (keysFromAdv env adv))
    | (none, e) => ((cfgs, keys), some (e.getD ""))

/-- Embeds `generate_config` (lines 355-383): no servers means no pin; one
server means pin `tang` with that server's config; several servers mean pin
`sss` wrapping the per-server tang configs with the threshold. -/
def generateConfig (env : Env) (servers : List String) (threshold : Int) :
    Option String × Option String × List String × Option String :=
  if servers.isEmpty then (none, none, [], none)
  else
    match generateConfigLoop env servers ([], []) with
    | (_, some e) => (none, none, [], some e)
    | ((cfgs, keys), none) =>
      if servers.length > 1 then
        (some "sss",
         some (dumpJson (.obj [("t", .num threshold), ("pins", .obj [("tang", .arr cfgs)])])),
         keys, none)
      else
        (some "tang", some (dumpJson (cfgs.headD .null)), keys, none)

/-- Embeds `decrypt_jwe` (lines 466-474): `clevis decrypt` on the blob. -/
def decryptJwe (env : Env) (jwe : String) : Option String × Option String :=
  match env.decrypt jwe with
  | none => (none, some "clevis decrypt failed")
  | some s => (some s, none)

/-- The secret `run_cryptsetup` effectively presents to cryptsetup: the
passphrase itself, or the contents of the key file at the given path
(`none` when the file does not exist, making the command fail). -/
def effectiveSecret (isKeyfile : Bool) (pass : String) : St (Option String) := fun w =>
  ((if isKeyfile then alookup pass w.keyfiles else some pass), w)

/-- Semantics of `cryptsetup open --test-passphrase [--key-slot slot]`: the
secret unlocks some occupied keyslot (or the given one). Read-only. -/
def testPassphrase (device : String) (secret : Option String) (slot : Option String) :
    St Bool := fun w =>
  match alookup device w.devices with
  | none => (false, w)
  | some d =>
    match secret with
    | none => (false, w)
    | some s =>
      match slot with
      | none => (d.slots.any (fun p => p.2 == s), w)
      | some sl => ((alookup sl d.slots).any (fun p => p == s), w)

/-- Embeds `valid_passphrase` (lines 527-551): requires a passphrase
argument, then runs the non-mutating unlock test. -/
def validPassphrase (device : String) (pass : Option String) (isKeyfile : Bool)
    (slot : Option String) : St (Bool × Option String) := do
  match pass with
  | none => return (false, some "valid_passphrase: passphrase is a required parameter")
  | some p =>
    let eff ← effectiveSecret isKeyfile p
    let ok ← testPassphrase device eff slot
    if ok then return (true, none)
    else return (false, some ("valid_passphrase: We need a valid passphrase for " ++ device))

/-- Embeds `parse_keyslots_luks1`/`parse_keyslots_luks2` + `keyslots_in_use`
(lines 386-445): a dump listing no occupied keyslot is a parse error;
otherwise the occupied slot number strings are returned sorted with
Python's `sorted()` — lexicographic string order. -/
def keyslotsInUse (device : String) : St (Option (List String) × Option String) := do
  let (luks, err) ← getLuksType true device
  match err with
  | some e => return (none, some e)
  | none =>
    let dOpt ← readDev device
    match dOpt with
    | none => return (none, some "keyslots_in_use: luksDump failed")
    | some d =>
      let used := d.slots.map Prod.fst
      if used.isEmpty then
        return (none, some (if luks = some "luks1" then "parse_keyslots_luks1: no used key slots"
                            else "parse_keyslots_luks2: no used key slots"))
      else return (some (pySorted used), none)

/-- The collection loop of `bound_slots` (lines 456-463). -/
def boundSlotsLoop (env : Env) (device : String) :
    List String → List String → St (List String)
  | [], acc => pure acc
  | slot :: rest, acc => do
    let (_, err) ← isSlotBound env device slot
    match err with
    | some _ => boundSlotsLoop env device rest acc
    | none => boundSlotsLoop env device rest (acc ++ [slot])

/-- Embeds `bound_slots` (lines 448-463). -/
def boundSlots (env : Env) (device : String) : St (Option (List String) × Option String) := do
  let (slotsOpt, err) ← keyslotsInUse device
  match err, slotsOpt with
  | some e, _ => return (none, some e)
  | none, none => return (none, some "keyslots_in_use failed")
  | none, some slots => do
    let bound ← boundSlotsLoop env device slots []
    return (some bound, none)

/-- The scan loop of `retrieve_passphrase` (lines 562-576): for each bound
slot in order, read the blob, decrypt it, and test the decrypted secret as a
device passphrase; the first success wins. -/
def retrieveLoop (env : Env) (device : String) :
    List String → St (Option String × Option String × Option String)
  | [] => pure (none, none, some "No passphrase retrieved")
  | slot :: rest => do
    let (jweOpt, err) ← getJwe env true device slot
    match err, jweOpt with
    | some _, _ => retrieveLoop env device rest
    | none, none => retrieveLoop env device rest
    | none, some jwe =>
      match decryptJwe env jwe with
      | (_, some _) => retrieveLoop env device rest
      | (none, none) => retrieveLoop env device rest
      | (some decrypted, none) => do
        let (_, verr) ← validPassphrase device (some decrypted) false none
        match verr with
        | some _ => retrieveLoop env device rest
        | none => pure (some slot, some decrypted, none)

/-- Embeds `retrieve_passphrase` (lines 554-576). -/
def retrievePassphrase (env : Env) (device : String) :
    St (Option String × Option String × Option String) := do
  let (slotsOpt, err) ← boundSlots env device
  match err, slotsOpt with
  | some e, _ => return (none, none, some e)
  | none, none => return (none, none, some "bound_slots failed")
  | none, some slots => retrieveLoop env device slots

/-- Embeds `get_valid_passphrase` (lines 1152-1188): use the supplied
credential if it tests valid; an invalid supplied credential with
`password_temporary` unset is an immediate error; otherwise fall back to
scanning existing bindings. -/
def getValidPassphrase (env : Env) (device : String) (pass : Option String)
    (isKeyfile : Bool) (passwordTemporary : Bool) :
    St (Option String × Bool × Option String) := do
  let (_, err) ← validPassphrase device pass isKeyfile none
  match err with
  | none => return (pass, isKeyfile, none)
  | some _ =>
    if !passwordTemporary && pass.isSome then
      return (none, false, some "Invalid passphrase for device")
    else do
      let (_, p, rerr) ← retrievePassphrase env device
      match rerr with
      | some e => return (none, false, some e)
      | none => return (p, false, none)

/-- Semantics of `cryptsetup luksChangeKey --key-slot slot`: succeeds iff the
presented secret currently opens that slot, replacing its passphrase in
place. -/
def cryptsetupChangeKey (device slot : String) (secret : Option String) (newPass : String) :
    St (Option String) := fun w =>
  match alookup device w.devices with
  | none => (some "luksChangeKey failed", w)
  | some d =>
    match secret, alookup slot d.slots with
    | some s, some cur =>
      if cur == s then
        (none, logW (.changeKeyCmd device slot)
          (setDevW device { d with slots := aset slot newPass d.slots } w))
      else (some "luksChangeKey failed", w)
    | _, _ => (some "luksChangeKey failed", w)

/-- Semantics of `cryptsetup luksKillSlot --batch-mode`: removes the keyslot;
fails when the slot is not in use. -/
def cryptsetupKillSlot (device slot : String) : St (Option String) := fun w =>
  match alookup device w.devices with
  | none => (some "luksKillSlot failed", w)
  | some d =>
    if (d.slots.map Prod.fst).contains slot then
      (none, logW (.killSlotCmd device slot)
        (setDevW device { d with slots := d.slots.filter (fun p => !(p.1 == slot)) } w))
    else (some "luksKillSlot failed", w)

/-- Semantics of `cryptsetup luksAddKey --key-slot slot`: requires a secret
valid for some occupied slot and a free target slot; appends the new
keyslot. -/
def cryptsetupAddKey (device slot : String) (secret : Option String) (newPass : String) :
    St (Option String) := fun w =>
  match alookup device w.devices with
  | none => (some "luksAddKey failed", w)
  | some d =>
    match secret with
    | none => (some "luksAddKey failed", w)
    | some s =>
      if d.slots.any (fun p => p.2 == s) && !((d.slots.map Prod.fst).contains slot) then
        (none, logW (.addKeyCmd device slot)
          (setDevW device { d with slots := d.slots ++ [(slot, newPass)] } w))
      else (some "luksAddKey failed", w)

/-- Remove the first keyslot whose passphrase matches. -/
def removeFirstMatch (s : String) : List (String × String) → List (String × String)
  | [] => []
  | p :: rest => if p.2 == s then rest else p :: removeFirstMatch s rest

/-- Semantics of `cryptsetup luksRemoveKey --batch-mode`: removes the (first)
keyslot the presented secret opens; fails when it opens none. -/
def cryptsetupRemoveKey (device : String) (secret : Option String) : St (Option String) := fun w =>
  match alookup device w.devices with
  | none => (some "luksRemoveKey failed", w)
  | some d =>
    match secret with
    | none => (some "luksRemoveKey failed", w)
    | some s =>
      if d.slots.any (fun p => p.2 == s) then
        (none, logW (.removeKeyCmd device)
          (setDevW device { d with slots := removeFirstMatch s d.slots } w))
      else (some "luksRemoveKey failed", w)

/-- Semantics of `luksmeta save -u <clevis uuid>`: stores the data for the
slot; fails when the store is not initialized. -/
def luksmetaSaveAct (device slot data : String) : St (Option String) := fun w =>
  match alookup device w.devices with
  | none => (some "luksmeta save failed", w)
  | some d =>
    if d.metaInit then
      (none, logW (.luksmetaSaveCmd device slot)
        (setDevW device { d with meta1 := aset slot data d.meta1 } w))
    else (some "luksmeta save failed", w)

/-- Semantics of `luksmeta wipe -f -u <clevis uuid>`: removes the slot's
entry; fails when the store is not initialized. -/
def luksmetaWipeAct (device slot : String) : St (Option String) := fun w =>
  match alookup device w.devices with
  | none => (some "luksmeta wipe failed", w)
  | some d =>
    if d.metaInit then
      (none, logW (.luksmetaWipeCmd device slot)
        (setDevW device { d with meta1 := apop slot d.meta1 } w))
    else (some "luksmeta wipe failed", w)

/-- Semantics of `luksmeta load -u <clevis uuid>` (read-only): the stored
data, unmodified. -/
def luksmetaLoadAct (device slot : String) : St (Option String) := fun w =>
  match alookup device w.devices with
  | none => (none, w)
  | some d => ((if d.metaInit then alookup slot d.meta1 else none), w)

/-- Semantics of `luksmeta init -f`: (re)initializes the side-car store,
clearing all entries. -/
def luksmetaInitAct (device : String) : St (Option String) := fun w =>
  match alookup device w.devices with
  | none => (some "luksmeta init failed", w)
  | some d =>
    (none, logW (.luksmetaInitCmd device)
      (setDevW device { d with metaInit := true, meta1 := [] } w))

/-- The token id `cryptsetup token import` assigns: the lowest free one. -/
def lowestFreeTokenId (toks : List (Nat × Json)) : Nat :=
  ((List.range (toks.length + 1)).find? (fun n => !(toks.any (fun p => p.1 == n)))).getD 0

/-- Insert a token keeping the ascending-id order of the dump. -/
def tokInsert (n : Nat) (t : Json) : List (Nat × Json) → List (Nat × Json)
  | [] => [(n, t)]
  | p :: rest => if n < p.1 then (n, t) :: p :: rest else p :: tokInsert n t rest

/-- Semantics of `cryptsetup token import`. -/
def cryptsetupTokenImport (device : String) (tok : Json) : St (Option String) := fun w =>
  match alookup device w.devices with
  | none => (some "token import failed", w)
  | some d =>
    (none, logW (.tokenImportCmd device)
      (setDevW device { d with tokens := tokInsert (lowestFreeTokenId d.tokens) tok d.tokens } w))

/-- Semantics of `cryptsetup token remove --token-id`: fails when no such
token exists (including the case where the formatted id is the text
`None`). -/
def cryptsetupTokenRemove (device tokenId : String) : St (Option String) := fun w =>
  match alookup device w.devices with
  | none => (some "token remove failed", w)
  | some d =>
    if d.tokens.any (fun p => toString p.1 == tokenId) then
      (none, logW (.tokenRemoveCmd device tokenId)
        (setDevW device { d with tokens := d.tokens.filter (fun p => !(toString p.1 == tokenId)) } w))
    else (some "token remove failed", w)

/-- Semantics of `cryptsetup token export --token-id` (read-only): the stored
token JSON, serialized. -/
def cryptsetupTokenExport (device tokenId : String) : St (Option String) := fun w =>
  match alookup device w.devices with
  | none => (none, w)
  | some d => (((d.tokens.find? (fun p => toString p.1 == tokenId)).map (fun p => dumpJson p.2)), w)

/-- Embeds `backup_luks1_device`'s per-slot load loop (lines 657-663). -/
def backupLuks1Loop (device : String) :
    List String → List (String × String) →
    St (Option (List (String × String)) × Option String)
  | [], acc => pure (some acc, none)
  | slot :: rest, acc => do
    let dataOpt ← luksmetaLoadAct device slot
    match dataOpt with
    | none => return (none, some "luksmeta load failed")
    | some data => backupLuks1Loop device rest (acc ++ [(slot, data)])

/-- Embeds `backup_luks1_device` (lines 648-664): snapshot the blob of every
clevis-bound slot (raw, not stripped). -/
def backupLuks1Device (env : Env) (device : String) :
    St (Option (List (String × String)) × Option String) := do
  let (boundOpt, err) ← boundSlots env device
  match err, boundOpt with
  | some e, _ => return (none, some e)
  | none, none => return (none, some "bound_slots failed")
  | none, some bound => backupLuks1Loop device bound []

/-- Defunctionalized call states of the mutually recursive
`save_slot_luks1` / `restore_luks1_device` pair (the restore path replays
slots through the save path, which on failure restores again), so that the
recursion is structural on the fuel. -/
inductive SaveCall where
  | save (device slot data : String) (overwrite : Bool) : SaveCall
  | tail (device slot data : String) (bound : Bool) (backup : List (String × String)) : SaveCall
  | restore (device : String) (backup : List (String × String)) : SaveCall
  | loop (device : String) (backup : List (String × String)) : SaveCall

/-- Embeds the `save_slot_luks1` / `restore_luks1_device` recursion (lines
579-645 and 667-683). `save`: snapshot all bound slots, wipe the target
entry when overwriting an existing binding, `luksmeta save` the data, read
it back through `get_jwe_luks1` and compare; on a failed save (when
previously bound) or a failed read-back comparison, restore the snapshot
and report failure. `restore`: `luksmeta init -f` reinitializes the whole
side-car store, then every backed-up slot is replayed through the save
path. The fuel models Python's recursion limit; the restore states return
their error in the second component. -/
def saveMachine (env : Env) : Nat → SaveCall → M (Bool × Option String)
  | 0, _ => mCrash "RecursionError: maximum recursion depth exceeded"
  | Nat.succ fuel, .save device slot data overwrite => do
    if data.length == 0 then return (false, some "We need data to save to a slot")
    else do
      let (bound, _) ← mLift (isSlotBound env device slot)
      let (backupOpt, berr) ← mLift (backupLuks1Device env device)
      match berr, backupOpt with
      | some e, _ => return (false, some e)
      | none, none => return (false, some "backup failed")
      | none, some backup =>
        if bound then
          if !overwrite then
            return (false, some (device ++ ":" ++ slot ++ " is already bound and no overwrite set"))
          else do
            let werr ← mLift (luksmetaWipeAct device slot)
            match werr with
            | some e => return (false, some e)
            | none => saveMachine env fuel (.tail device slot data bound backup)
        else saveMachine env fuel (.tail device slot data bound backup)
  | Nat.succ fuel, .tail device slot data bound backup => do
    let serr ← mLift (luksmetaSaveAct device slot data)
    match serr with
    | some e =>
      if bound then do
        let _ ← saveMachine env fuel (.restore device backup)
        return (false, some e)
      else return (false, some e)
    | none => do
      let (newData, gerr) ← mLift (getJweLuks1 device slot)
      if gerr.isSome || !(newData == some data) then do
        let _ ← saveMachine env fuel (.restore device backup)
        return (false, some ("Error adding JWE to " ++ device ++ ":" ++ slot ++
          " ; no changes performed"))
      else return (true, none)
  | Nat.succ fuel, .restore device backup => do
    let ierr ← mLift (luksmetaInitAct device)
    match ierr with
    | some e => return (false, some e)
    | none => saveMachine env fuel (.loop device backup)
  | Nat.succ fuel, .loop device backup =>
    match backup with
    | [] => pure (false, none)
    | (slot, data) :: rest => do
      let (_, err) ← saveMachine env fuel (.save device slot data true)
      match err with
      | some e => return (false, some e)
      | none => saveMachine env fuel (.loop device rest)

/-- Embeds `save_slot_luks1` (lines 579-645). -/
def saveSlotLuks1 (env : Env) (fuel : Nat) (device slot data : String) (overwrite : Bool) :
    M (Bool × Option String) :=
  saveMachine env fuel (.save device slot data overwrite)

/-- Embeds `restore_luks1_device` (lines 667-683). -/
def restoreLuks1Device (env : Env) (fuel : Nat) (device : String)
    (backup : List (String × String)) : M (Option String) := do
  let (_, e) ← saveMachine env fuel (.restore device backup)
  pure e

/-- Embeds `backup_luks2_token` (lines 686-699): export the token and parse
it back as JSON. -/
def backupLuks2Token (env : Env) (device tokenId : String) :
    St (Option Json × Option String) := do
  let tokOpt ← cryptsetupTokenExport device tokenId
  match tokOpt with
  | none => return (none, some "Error during token backup")
  | some tokenStr =>
    match env.jsonLoads tokenStr with
    | none => return (none, some "token backup: invalid JSON")
    | some tj => return (some tj, none)

/-- Python `not token or len(token) == 0` in `import_luks2_token`: falsy or
empty means invalid; `len` on a number or a nonzero bool raises. -/
def pyTokenInvalid : Option Json → Except String Bool
  | none => .ok true
  | some j =>
    match j with
    | .obj l => .ok l.isEmpty
    | .arr l => .ok l.isEmpty
    | .str s => .ok s.isEmpty
    | .null => .ok true
    | .bool b => if b then .error "TypeError: object of type bool has no len" else .ok true
    | .num n => if n == 0 then .ok true else .error "TypeError: object of type int has no len"

/-- Embeds `import_luks2_token` (lines 702-719). -/
def importLuks2Token (device : String) (token : Option Json) : M (Option String) := do
  let inv ← mExc (pyTokenInvalid token)
  if inv then return some "import_luks2_token: Invalid token"
  else
    match token with
    | none => return some "import_luks2_token: Invalid token"
    | some tok => mLift (cryptsetupTokenImport device tok)

/-- Embeds `make_luks2_token` (lines 722-731). -/
def makeLuks2Token (env : Env) (slot : String) (data : String) : Option Json × Option String :=
  match env.jsonLoads data with
  | none => (none, some "Error making new token: invalid JSON")
  | some jwe =>
    (some (.obj [("type", .str "clevis"), ("keyslots", .arr [.str slot]), ("jwe", jwe)]), none)

/-- The write-verify-undo tail of `save_slot_luks2` (lines 784-820): format
the JWE, build and import the new token, read it back through
`get_jwe_luks2` and compare against the compact form of the input; on
mismatch remove the new token, re-import the old one and fail. A failure in
`make_luks2_token` returns without re-importing the old token (as in the
source). -/
def saveSlotLuks2Core (env : Env) (device slot data : String) (oldData : Option Json) :
    M (Bool × Option String) := do
  match formatJweP env false data with
  | (_, some e) => do
    let _ ← importLuks2Token device oldData
    return (false, some ("Error preparing JWE: " ++ e))
  | (none, none) => do
    let _ ← importLuks2Token device oldData
    return (false, some "Error preparing JWE: ")
  | (some jwe, none) =>
    match makeLuks2Token env slot jwe with
    | (_, some e) => return (false, some e)
    | (none, none) => return (false, some "Error making new token")
    | (some token, none) => do
      let ierr ← importLuks2Token device (some token)
      match ierr with
      | some e => do
        let _ ← importLuks2Token device oldData
        return (false, some e)
      | none => do
        let (metadata, tid2, verr) ← mLift (getJweLuks2 env device slot)
        let cmp := (formatJweP env true data).1
        if verr.isSome || !(metadata == cmp) then do
          let _ ← mLift (cryptsetupTokenRemove device (tid2.getD "None"))
          let _ ← importLuks2Token device oldData
          return (false, some ("Error storing token: " ++ data ++ " / " ++ metadata.getD ""))
        else return (true, none)

/-- Embeds `save_slot_luks2` (lines 747-781): empty data is rejected; when
the slot is already bound, an overwrite must be requested, the old token is
backed up and removed, and the old token is what a failed verification
restores. -/
def saveSlotLuks2 (env : Env) (device slot data : String) (overwrite : Bool) :
    M (Bool × Option String) := do
  if data.length == 0 then return (false, some "We need data to save to a slot")
  else do
    let (_, tidOpt, gerr) ← mLift (getJweLuks2 env device slot)
    match gerr, tidOpt with
    | none, some tid =>
      if !overwrite then
        return (false, some (device ++ ":" ++ slot ++ " is already bound and no overwrite set"))
      else do
        let (bk, berr) ← mLift (backupLuks2Token env device tid)
        match berr with
        | some e => return (false, some e)
        | none => do
          let rerr ← mLift (cryptsetupTokenRemove device tid)
          match rerr with
          | some e => return (false, some ("Error removing token: " ++ e))
          | none => saveSlotLuks2Core env device slot data bk
    | _, _ => saveSlotLuks2Core env device slot data none

/-- Embeds `save_slot` (lines 823-837). -/
def saveSlot (env : Env) (fuel : Nat) (device slot data : String) (overwrite : Bool) :
    M (Bool × Option String) := do
  let (luks, err) ← mLift (getLuksType true device)
  match err with
  | some e => return (false, some e)
  | none =>
    if luks = some "luks1" then saveSlotLuks1 env fuel device slot data overwrite
    else saveSlotLuks2 env device slot data overwrite

/-- Embeds `is_keyslot_in_use` (lines 840-848); the caller's slot is
stringified by the function itself (`str(slot) in slots`). -/
def isKeyslotInUse (device : String) (slot : String) : St Bool := do
  let (slotsOpt, err) ← keyslotsInUse device
  match err, slotsOpt with
  | some _, _ => return false
  | none, none => return false
  | none, some slots => return slots.contains slot

/-- Embeds `set_passphrase` (lines 851-942): check the current credential,
detect whether it opens the target slot (in-place key change via
`luksChangeKey`), otherwise kill the occupied target slot and add the new
key. -/
def setPassphrase (device slot : String) (validPass : Option String)
    (newPass : String) (isKeyfile : Bool) : St (Bool × Option String) := do
  let (_, err) ← validPassphrase device validPass isKeyfile none
  match err with
  | some _ => return (false, some ("We need a valid passphrase for " ++ device))
  | none => do
    let (_, err2) ← validPassphrase device validPass isKeyfile (some slot)
    let eff ← effectiveSecret isKeyfile (validPass.getD "")
    if err2.isNone then do
      let cerr ← cryptsetupChangeKey device slot eff newPass
      match cerr with
      | some e => return (false, some e)
      | none => return (true, none)
    else do
      let inUse ← isKeyslotInUse device slot
      let killRes ← (if inUse then cryptsetupKillSlot device slot else pure none)
      match killRes with
      | some e => return (false, some e)
      | none => do
        let aerr ← cryptsetupAddKey device slot eff newPass
        match aerr with
        | some e => return (false, some e)
        | none => return (true, none)

/-- Embeds `unbind_slot_luks1` (lines 945-964). -/
def unbindSlotLuks1 (device slot : String) : St (Bool × Option String) := do
  let (_, err) ← getJweLuks1 device slot
  match err with
  | some _ => return (false, some (device ++ ":" ++ slot ++ " is not bound to clevis"))
  | none => do
    let kerr ← cryptsetupKillSlot device slot
    match kerr with
    | some e => return (false, some e)
    | none => do
      let werr ← luksmetaWipeAct device slot
      match werr with
      | some e => return (false, some e)
      | none => return (true, none)

/-- Embeds `unbind_slot_luks2` (lines 967-984). -/
def unbindSlotLuks2 (env : Env) (device slot : String) : St (Bool × Option String) := do
  let (_, tidOpt, err) ← getJweLuks2 env device slot
  match err, tidOpt with
  | some _, _ => return (false, some (device ++ ":" ++ slot ++ " is not bound to clevis"))
  | none, none => return (false, some (device ++ ":" ++ slot ++ " is not bound to clevis"))
  | none, some tid => do
    let kerr ← cryptsetupKillSlot device slot
    match kerr with
    | some e => return (false, some e)
    | none => do
      let rerr ← cryptsetupTokenRemove device tid
      match rerr with
      | some e => return (false, some e)
      | none => return (true, none)

/-- Embeds `unbind_slot` (lines 987-998). -/
def unbindSlot (env : Env) (device slot : String) : St (Bool × Option String) := do
  let (luks, err) ← getLuksType true device
  match err with
  | some e => return (false, some e)
  | none =>
    if luks = some "luks1" then unbindSlotLuks1 device slot
    else unbindSlotLuks2 env device slot

/-- Embeds `new_key` (lines 1001-1029): read the master-key entropy from the
dump and run `pwmake`, right-stripping its output. -/
def newKey (env : Env) (device : String) : St (Option String × Option String) := do
  let (_, err) ← getLuksType true device
  match err with
  | some e => return (none, some e)
  | none => do
    let dOpt ← readDev device
    match dOpt with
    | none => return (none, some "luksDump failed")
    | some d =>
      match d.keyBits with
      | none => return (none, some ("new_key: Unable to find entropy bits for " ++ device))
      | some bits =>
        match env.pwmake bits with
        | none => return (none, some "pwmake failed")
        | some key => return (some (pyRstrip key), none)

/-- Embeds `new_pass_jwe` (lines 1032-1052): generate a key, `clevis encrypt`
it, then decrypt the produced blob and require the round trip to give back
the key; a `None` pin would reach `run_command` with a `None` argument. -/
def newPassJwe (env : Env) (device : String) (pin pinCfg : Option String) :
    M (Option String × Option String × Option String) := do
  let (keyOpt, err) ← mLift (newKey env device)
  match err, keyOpt with
  | some e, _ => return (none, none, some e)
  | none, none => return (none, none, some "new_key failed")
  | none, some key =>
    match pin, pinCfg with
    | some p, some cfg =>
      match env.encrypt p cfg key with
      | none => return (none, none, some "clevis encrypt failed")
      | some jwe =>
        match decryptJwe env jwe with
        | (some dec, none) =>
          if dec == key then return (some key, some jwe, none)
          else return (none, none, some "Error generating new passphrase")
        | _ => return (none, none, some "Error generating new passphrase")
    | _, _ => mCrash "TypeError: clevis encrypt argument is None"

/-- Python `slot in slots` in `can_bind_slot`, comparing the integer slot
against the list of slot number strings parsed from the dump: an int is
never `==` a str in Python, so this membership test is always false. -/
def pyIntInStrList (_slot : Int) (_slots : List String) : Bool := false

/-- Embeds `can_bind_slot` (lines 1055-1077). -/
def canBindSlot (env : Env) (device : String) (slot : Int) (overwrite : Bool) :
    St (Bool × Option String) := do
  let (_, err) ← getLuksType true device
  match err with
  | some e => return (false, some e)
  | none => do
    let (bound, _) ← isSlotBound env device (toString slot)
    if bound && !overwrite then
      return (false, some (device ++ ":" ++ toString slot ++
        " is already bound and no overwrite set"))
    else do
      let (slotsOpt, kerr) ← keyslotsInUse device
      match kerr, slotsOpt with
      | some e, _ => return (false, some e)
      | none, none => return (false, some "keyslots_in_use failed")
      | none, some slots =>
        if !bound && pyIntInStrList slot slots then
          return (false, some "slot already used, but not bound by clevis. cannot use it")
        else return (true, none)

/-- Embeds `discard_passphrase` (lines 1080-1097). -/
def discardPassphrase (device : String) (pass : String) (isKeyfile : Bool) :
    St (Bool × Option String) := do
  let eff ← effectiveSecret isKeyfile pass
  let rerr ← cryptsetupRemoveKey device eff
  match rerr with
  | some e => return (false, some ("Error removing passphrase: " ++ e))
  | none => return (true, none)

/-- A metadata backup: LUKS1 per-slot blobs, or a LUKS2 token. -/
inductive BackupV where
  | luks1 (entries : List (String × String)) : BackupV
  | luks2 (token : Json) : BackupV

/-- Embeds `prepare_to_rebind` (lines 1100-1136): back the metadata up and
remove it. In the LUKS2 branch a failing `get_jwe_luks2` hits the
single-value `return err` bug (line 1127), which makes the caller's tuple
unpacking raise `ValueError`. -/
def prepareToRebind (env : Env) (device slot : String) :
    M (Option BackupV × Option String) := do
  let (luks, err) ← mLift (getLuksType true device)
  match err with
  | some e => return (none, some e)
  | none =>
    if luks = some "luks1" then do
      let (bOpt, berr) ← mLift (backupLuks1Device env device)
      match berr, bOpt with
      | some e, _ => return (none, some e)
      | none, none => return (none, some "backup failed")
      | none, some backup => do
        let werr ← mLift (luksmetaWipeAct device slot)
        match werr with
        | some e => return (none, some e)
        | none => return (some (.luks1 backup), none)
    else do
      let (_, tidOpt, gerr) ← mLift (getJweLuks2 env device slot)
      match gerr, tidOpt with
      | some _, _ => mCrash "ValueError: too many values to unpack"
      | none, none => mCrash "ValueError: too many values to unpack"
      | none, some tid => do
        let (bOpt, berr) ← mLift (backupLuks2Token env device tid)
        match berr, bOpt with
        | some e, _ => return (none, some e)
        | none, none => return (none, some "backup failed")
        | none, some tok => do
          let rerr ← mLift (cryptsetupTokenRemove device tid)
          match rerr with
          | some e => return (none, some e)
          | none => return (some (.luks2 tok), none)

/-- Embeds `restore_failed_rebind` (lines 1139-1149); its return value is
ignored by its caller. -/
def restoreFailedRebind (env : Env) (fuel : Nat) (device : String) (backup : BackupV) :
    M (Option String) := do
  let (luks, err) ← mLift (getLuksType true device)
  match err with
  | some _ => return none
  | none =>
    if luks = some "luks1" then
      match backup with
      | .luks1 entries => restoreLuks1Device env fuel device entries
      | .luks2 _ => mCrash "TypeError: wrong backup shape"
    else
      match backup with
      | .luks2 tok => importLuks2Token device (some tok)
      | .luks1 _ => mCrash "TypeError: wrong backup shape"

/-- The recursion budget standing in for Python's recursion limit. -/
def recLimit : Nat := 1000

/-- The keyslot-update and metadata-write tail of `bind_slot` (lines
1231-1262): set the new keyslot passphrase (restoring the pre-rebind backup
if that fails), then write the metadata with overwrite, and finally discard
the temporary credential when applicable. A `save_slot` failure returns
without restoring the backup or the keyslot passphrase. -/
def bindSlotFinish (env : Env) (device : String) (slot : Int) (vpass : Option String)
    (vkf : Bool) (key jwe : String) (discardPw : Bool) (backup : Option BackupV) :
    M (Bool × Option String) := do
  let (_, serr) ← mLift (setPassphrase device (toString slot) vpass key vkf)
  match serr with
  | some e =>
    match backup with
    | some b => do
      let _ ← restoreFailedRebind env recLimit device b
      return (false, some e)
    | none => return (false, some e)
  | none => do
    let (_, sverr) ← saveSlot env recLimit device (toString slot) jwe true
    match sverr with
    | some e => return (false, some e)
    | none =>
      if discardPw then mLift (discardPassphrase device (vpass.getD "") vkf)
      else return (true, none)

/-- Embeds `bind_slot` (lines 1191-1262): slot-usability check, credential
resolution, key generation and encryption with round-trip verification,
pre-rebind metadata backup when the slot is already bound, then the keyslot
and metadata writes. -/
def bindSlot (env : Env) (device : String) (slot : Int) (auth authCfg : Option String)
    (pass : Option String) (isKeyfile : Bool) (overwrite : Bool) (passwordTemporary : Bool) :
    M (Bool × Option String) := do
  let (_, cerr) ← mLift (canBindSlot env device slot overwrite)
  match cerr with
  | some e => return (false, some e)
  | none => do
    let (vpass, vkf, verr) ← mLift (getValidPassphrase env device pass isKeyfile passwordTemporary)
    match verr with
    | some e => return (false, some e)
    | none => do
      let discardPw := passwordTemporary && (vpass == pass)
      let (keyOpt, jweOpt, nerr) ← newPassJwe env device auth authCfg
      match nerr, keyOpt, jweOpt with
      | some e, _, _ => return (false, some e)
      | none, none, _ => return (false, some "new_pass_jwe failed")
      | none, _, none => return (false, some "new_pass_jwe failed")
      | none, some key, some jwe => do
        let (bound, _) ← mLift (isSlotBound env device (toString slot))
        if bound then do
          let (bOpt, perr) ← prepareToRebind env device (toString slot)
          match perr, bOpt with
          | some e, _ => return (false, some e)
          | none, none => return (false, some "prepare_to_rebind failed")
          | none, some backup => bindSlotFinish env device slot vpass vkf key jwe discardPw (some backup)
        else bindSlotFinish env device slot vpass vkf key jwe discardPw none

/-- Result quadruple of the decode functions: pin name, decoded config, key
fingerprints, error. A `.error` of the surrounding `Except` is an uncaught
Python exception. -/
abbrev DecodeResult := Option String × Option Json × List String × Option String

/-- Embeds `decode_jwe` (lines 1265-1288): the three-stage jose pipeline that
recovers the JSON protected header of a compact JWE; a `json.loads` failure
at the end is caught and reported as an error value. -/
def decodeJweHeader (env : Env) (jwe : String) : Option Json × Option String :=
  match env.decodeJweHdr jwe with
  | none => (none, some "Error decoding JWE")
  | some j => (some j, none)

/-- Embeds `decode_pin_tang` (lines 1291-1309): requires `url` and
`adv.keys`; thumbprints every advertisement key (failures skipped) and
returns the config reduced to the url. -/
def decodePinTang (env : Env) (jsonJwe : Json) : Except String DecodeResult := do
  let hasUrl ← pyContains jsonJwe "url"
  if !hasUrl then return (none, none, [], some "Invalid tang config: no url")
  else do
    let hasAdv ← pyContains jsonJwe "adv"
    if !hasAdv then return (none, none, [], some "Invalid tang config: no keys in adv")
    else do
      let adv ← pyIndexS jsonJwe "adv"
      let hasKeys ← pyContains adv "keys"
      if !hasKeys then return (none, none, [], some "Invalid tang config: no keys in adv")
      else do
        let advKeysJ ← pyIndexS adv "keys"
        let keyList ← pyIterate advKeysJ
        let keys := keyList.foldl
          (fun acc key =>
            match env.thumbprint (dumpJson key) with
            | none => acc
            | some thp => keyInsert acc thp) []
        let url ← pyIndexS jsonJwe "url"
        return (some "tang", some (.obj [("url", url)]), keys, none)

/-- Embeds `decode_pin_tpm2` (lines 1312-1322): pass the known tpm2 fields
through, in their fixed order. -/
def decodePinTpm2 (jsonJwe : Json) : Except String DecodeResult := do
  let pin ← ["hash", "key", "pcr_bank", "pcr_ids", "pcr_digest"].foldlM
    (fun acc k => do
      let has ← pyContains jsonJwe k
      if has then do
        let v ← pyIndexS jsonJwe k
        pure (acc ++ [(k, v)])
      else pure acc) ([] : List (String × Json))
  return (some "tpm2", some (.obj pin), [], none)

/-- Defunctionalized call states of the recursive `decode_pin_config` /
`decode_pin_sss` / `process_pin_sss` trio, so that the recursion is
structural on the fuel. -/
inductive DecCall where
  | config (j : Json) : DecCall
  | sss (cfg : Json) : DecCall
  | psss (cfg threshold : Json) : DecCall
  | loop (children : List Json) (pinCfg : List (String × Json)) (keys : List String) : DecCall

/-- Embeds the recursive decode of a clevis policy (lines 1325-1386).
`config` (from `decode_pin_config`): decode the blob's protected header,
read `clevis.pin` and the pin's own config, and dispatch by pin name
(unknown pins are an error value). `sss` (from `decode_pin_sss`): requires
a threshold. `psss`/`loop` (from `process_pin_sss`): iterate the child
blobs (`json_jwe["jwe"]`, a KeyError crash when missing), recursively
decoding each one; failed children are skipped; a successful child merges
its keys and nests its config under its pin name (an sss child replaces,
other pins append to a list). The loop states return through `Sum.inr`. -/
def decodeMachine (env : Env) :
    Nat → DecCall → Except String (DecodeResult ⊕ (List (String × Json) × List String))
  | 0, _ => .error "RecursionError: maximum recursion depth exceeded"
  | Nat.succ fuel, .config jwe =>
    match jwe with
    | .str jweStr =>
      match decodeJweHeader env jweStr with
      | (_, some e) => .ok (.inl (none, none, [], some e))
      | (none, none) => .ok (.inl (none, none, [], some "Error decoding JWE"))
      | (some jweJson, none) => do
        let hasClevis ← pyContains jweJson "clevis"
        let pinOk ← (if hasClevis then do
            let cl ← pyIndexS jweJson "clevis"
            pyContains cl "pin"
          else pure false)
        if !hasClevis || !pinOk then return (.inl (none, none, [], some "Invalid clevis pin config"))
        else do
          let cl ← pyIndexS jweJson "clevis"
          let pinJ ← pyIndexS cl "pin"
          match pinJ with
          | .str pin => do
            let hasCfg ← pyContains cl pin
            if !hasCfg then return (.inl (none, none, [], some "Invalid clevis pin config"))
            else do
              let config ← pyIndexS cl pin
              if pin == "tang" then do
                let r ← decodePinTang env config
                return (.inl r)
              else if pin == "tpm2" then do
                let r ← decodePinTpm2 config
                return (.inl r)
              else if pin == "sss" then decodeMachine env fuel (.sss config)
              else return (.inl (none, none, [], some ("Unsupported pin '" ++ pin ++ "'")))
          | .arr _ => .error "TypeError: unhashable type"
          | .obj _ => .error "TypeError: unhashable type"
          | _ => return (.inl (none, none, [], some "Invalid clevis pin config"))
    | _ => .error "TypeError: data must be str or bytes"
  | Nat.succ fuel, .sss cfg => do
    let hasT ← pyContains cfg "t"
    if !hasT then return (.inl (none, none, [], some "Invalid sss config: no threshold"))
    else do
      let threshold ← pyIndexS cfg "t"
      decodeMachine env fuel (.psss cfg threshold)
  | Nat.succ fuel, .psss cfg threshold => do
    let jweList ← pyIndexS cfg "jwe"
    let coded ← pyIterate jweList
    let r ← decodeMachine env fuel (.loop coded [] [])
    match r with
    | .inr (pinCfg, keys) =>
      return (.inl (some "sss", some (.obj [("t", threshold), ("pins", .obj pinCfg)]), keys, none))
    | .inl _ => .error "impossible loop result"
  | Nat.succ fuel, .loop children pinCfg keys =>
    match children with
    | [] => .ok (.inr (pinCfg, keys))
    | coded :: rest => do
      let r ← decodeMachine env fuel (.config coded)
      match r with
      | .inr _ => .error "impossible config result"
      | .inl (_, _, _, some _) => decodeMachine env fuel (.loop rest pinCfg keys)
      | .inl (some pin, some cfg2, pinKeys, none) =>
        let keys2 := keyMerge keys pinKeys
        if pin == "sss" then decodeMachine env fuel (.loop rest (aset pin cfg2 pinCfg) keys2)
        else
          match alookup pin pinCfg with
          | none => decodeMachine env fuel (.loop rest (aset pin (.arr [cfg2]) pinCfg) keys2)
          | some (.arr l) =>
            decodeMachine env fuel (.loop rest (aset pin (.arr (l ++ [cfg2])) pinCfg) keys2)
          | some _ => .error "AttributeError: object has no attribute append"
      | .inl _ => decodeMachine env fuel (.loop rest pinCfg keys)

/-- Embeds `decode_pin_config` (lines 1360-1386). -/
def decodePinConfig (env : Env) (fuel : Nat) (j : Json) : Except String DecodeResult :=
  match decodeMachine env fuel (.config j) with
  | .ok (.inl r) => .ok r
  | .ok (.inr _) => .error "impossible"
  | .error e => .error e

/-- The adv-stripping of `already_bound` (lines 1415-1421): for a tang
binding pop `adv` from the desired policy; otherwise pop `adv` from each
entry of `policy["pins"]["tang"]` (raising where Python would). -/
def cleanPolicy (auth : Option String) (originalPolicy : Json) : Except String Json :=
  if auth == some "tang" then
    match originalPolicy with
    | .obj l => .ok (.obj (apop "adv" l))
    | _ => .error "AttributeError: no attribute pop"
  else do
    let pins ← pyIndexS originalPolicy "pins"
    let tang ← pyIndexS pins "tang"
    match tang with
    | .arr entries => do
      let cleaned ← entries.mapM (fun e =>
        match e with
        | .obj l => .ok (Json.obj (apop "adv" l))
        | _ => .error "AttributeError: no attribute pop")
      match originalPolicy, pins with
      | .obj ol, .obj pl => .ok (.obj (aset "pins" (.obj (aset "tang" (.arr cleaned) pl)) ol))
      | _, _ => .error "TypeError"
    | _ => .error "TypeError: not a list"

/-- Embeds `already_bound` (lines 1389-1434). Check 1: the slot holds a
clevis JWE (no side-car initialization). Check 2: the blob decrypts.
Check 3: the decrypted secret opens that keyslot. Check 4: the decoded pin
and policy equal the desired ones (advertisements stripped; Python dict
equality). Check 5: every decoded key fingerprint is in the freshly fetched
key set. -/
def alreadyBound (env : Env) (device : String) (slot : Int) (auth authCfg : Option String)
    (keySet : List String) : M Bool := do
  let (jweOpt, gerr) ← mLift (getJwe env false device (toString slot))
  match gerr, jweOpt with
  | some _, _ => return false
  | none, none => return false
  | none, some jwe =>
    match decryptJwe env jwe with
    | (_, some _) => return false
    | (none, none) => return false
    | (some decrypted, none) => do
      let (_, verr) ← mLift (validPassphrase device (some decrypted) false (some (toString slot)))
      match verr with
      | some _ => return false
      | none =>
        match authCfg with
        | none => mCrash "TypeError: the JSON object must be str, not None"
        | some cfgStr =>
          match env.jsonLoads cfgStr with
          | none => mCrash "ValueError: invalid JSON in auth_cfg"
          | some originalPolicy => do
            let cleaned ← mExc (cleanPolicy auth originalPolicy)
            match decodePinConfig env recLimit (.str jwe) with
            | .error s => mCrash s
            | .ok (pin, policyOpt, keys, derr) =>
              if derr.isSome || !(pin == auth) ||
                  !(match policyOpt with
                    | some policy => pyJsonEq policy cleaned
                    | none => false) then
                return false
              else
                return (keys.all (fun k => keySet.contains k))

/-- Embeds `process_bind_operation` (lines 1500-1537): build the desired
policy (a failure raises `NbdeClientClevisError` with the error dict nested
in `msg`), pick the credential from the binding, skip when `already_bound`,
report a change in check mode, otherwise run `bind_slot`. -/
def processBindOperation (env : Env) (checkMode : Bool) (b : RawBinding) :
    M (Bool × Option String) := do
  match b.servers, b.threshold with
  | none, _ => mCrash "KeyError: servers"
  | _, none => mCrash "KeyError: threshold"
  | some servers, some threshold =>
    match generateConfig env servers threshold with
    | (_, _, _, some e) => mRaise { msg := .nested e, original_bindings := none }
    | (authName, cfg, cfgKeys, none) => do
      let pass0 : Option String :=
        match b.encryption_password with
        | some p => if p.isEmpty then none else some p
        | none => none
      let pass : Option String :=
        match pass0 with
        | some p => some p
        | none => b.encryption_key
      let isKeyfile := b.encryption_key.isSome
      match b.device, b.slot, b.password_temporary with
      | none, _, _ => mCrash "KeyError: device"
      | _, none, _ => mCrash "KeyError: slot"
      | _, _, none => mCrash "KeyError: password_temporary"
      | some device, some slot, some pwTemp => do
        let ab ← alreadyBound env device slot authName cfg cfgKeys
        if ab then return (false, none)
        else if checkMode then return (true, none)
        else do
          let (_, berr) ← bindSlot env device slot authName cfg pass isKeyfile true pwTemp
          match berr with
          | some e => return (false, some e)
          | none => return (true, none)

/-- The result dict built by `process_bindings`. -/
structure RunResult where
  changed : Bool
  original_bindings : List RawBinding
deriving DecidableEq

/-- Loop control of one `process_bindings` iteration: continue with the
updated result dict, or return it early (the check-mode `return result`). -/
inductive StepOut where
  | cont (result : RunResult) : StepOut
  | stop (result : RunResult) : StepOut

/-- One iteration of the `process_bindings` loop (lines 1547-1574): an
absent binding whose slot is not bound is skipped; a bound absent slot is
unbound (in check mode the loop returns immediately with the changed flag);
present bindings go through `process_bind_operation` (in check mode a
would-change binding also returns immediately); any unbind or bind error
raises `NbdeClientClevisError` carrying the full original bindings list. -/
def processBindingsStep (env : Env) (checkMode : Bool) (orig : List RawBinding)
    (b : RawBinding) (result : RunResult) : M StepOut := do
  match b.state with
  | none => mCrash "KeyError: state"
  | some st =>
    if st == "absent" then do
      match b.device, b.slot with
      | none, _ => mCrash "KeyError: device"
      | _, none => mCrash "KeyError: slot"
      | some device, some slot => do
        let (_, err) ← mLift (isSlotBound env device (toString slot))
        match err with
        | some _ => return .cont result
        | none =>
          if checkMode then return .stop { result with changed := true }
          else do
            let (_, uerr) ← mLift (unbindSlot env device (toString slot))
            match uerr with
            | some e => mRaise { msg := .plain e, original_bindings := some orig }
            | none => return .cont { result with changed := true }
    else do
      let (changed, perr) ← processBindOperation env checkMode b
      match perr with
      | some e => mRaise { msg := .plain e, original_bindings := some orig }
      | none =>
        if changed then
          if checkMode then return .stop { result with changed := true }
          else return .cont { result with changed := true }
        else return .cont result

/-- The `process_bindings` loop over the bindings, in input order. -/
def processBindingsLoop (env : Env) (checkMode : Bool) (orig : List RawBinding) :
    List RawBinding → RunResult → M RunResult
  | [], result => pure result
  | b :: rest, result => do
    let out ← processBindingsStep env checkMode orig b result
    match out with
    | .cont r2 => processBindingsLoop env checkMode orig rest r2
    | .stop r2 => pure r2

/-- Embeds `process_bindings` (lines 1540-1575). -/
def processBindings (env : Env) (checkMode : Bool) (bindings : List RawBinding) : M RunResult :=
  processBindingsLoop env checkMode bindings bindings
    { changed := false, original_bindings := bindings }

/-- The `os.path`/`shlex` platform functions used by the confidence check
(external to the module). -/
structure OsOps where
  basename : String → String
  joinPath : String → String → String
  quote : String → String

/-- The defaults-filling tail of one `bindings_confidence_check` iteration
(lines 1485-1495). -/
def applyBindingDefaults (b : RawBinding) : RawBinding × Option String :=
  ({ b with
      slot := some (b.slot.getD 1),
      threshold := some (b.threshold.getD 1),
      password_temporary := some (b.password_temporary.getD false),
      servers := some (b.servers.getD []) }, none)

/-- The device and encryption-key steps of one `bindings_confidence_check`
iteration (lines 1465-1483). -/
def normalizeBindingDevice (os : OsOps) (dataDir : Option String) (checkMode : Bool)
    (b : RawBinding) : RawBinding × Option String :=
  match b.device with
  | none => (b, some "Each binding must have a device set")
  | some _ =>
    if (b.encryption_key.isSome || b.encryption_key_src.isSome) && !checkMode then
      match dataDir with
      | none => (b, some "data_dir needs to be defined")
      | some dd =>
        if dd.isEmpty then (b, some "data_dir needs to be defined")
        else
          let basefile :=
            match b.encryption_key with
            | some ek => os.basename ek
            | none => os.basename (b.encryption_key_src.getD "")
          applyBindingDefaults
            { b with encryption_key := some (os.quote (os.joinPath dd basefile)) }
    else applyBindingDefaults b

/-- One iteration of `bindings_confidence_check` (lines 1456-1495),
returning the binding as mutated in place together with any error. -/
def normalizeBinding (os : OsOps) (dataDir : Option String) (checkMode : Bool)
    (b : RawBinding) : RawBinding × Option String :=
  match b.state with
  | some st =>
    if st == "present" || st == "absent" then normalizeBindingDevice os dataDir checkMode b
    else (b, some "state must be present or absent")
  | none => normalizeBindingDevice os dataDir checkMode { b with state := some "present" }

/-- The list loop of `bindings_confidence_check`; the third component
reflects the in-place mutation of the caller's list up to the point of an
error. -/
def bindingsConfidenceCheckLoop (os : OsOps) (dataDir : Option String) (checkMode : Bool) :
    List RawBinding → List RawBinding →
    Option (List RawBinding) × Option String × List RawBinding
  | [], acc => (some acc, none, acc)
  | b :: rest, acc =>
    match normalizeBinding os dataDir checkMode b with
    | (b2, none) => bindingsConfidenceCheckLoop os dataDir checkMode rest (acc ++ [b2])
    | (b2, some e) => (none, some e, acc ++ [b2] ++ rest)

/-- Embeds `bindings_confidence_check` (lines 1437-1497): a missing or empty
bindings list fails with `No devices set`; otherwise each binding is
normalized in order, the first bad binding failing the whole check. -/
def bindingsConfidenceCheck (os : OsOps) (bindings : Option (List RawBinding))
    (dataDir : Option String) (checkMode : Bool) :
    Option (List RawBinding) × Option String × Option (List RawBinding) :=
  match bindings with
  | none => (none, some "No devices set", none)
  | some l =>
    if l.isEmpty then (none, some "No devices set", some l)
    else
      match bindingsConfidenceCheckLoop os dataDir checkMode l [] with
      | (res, err, mutated) => (res, err, some mutated)

/-- Embeds `obscure_sensitive_parameters` as it acts on a binding dict:
an existing `encryption_password` value becomes `***`. -/
def obscureBinding (b : RawBinding) : RawBinding :=
  match b.encryption_password with
  | some _ => { b with encryption_password := some "***" }
  | none => b

/-- Secret redaction over the surfaced bindings list. -/
def obscureBindings (l : List RawBinding) : List RawBinding := l.map obscureBinding

/-- The result dict `run_module` hands to `fail_json`/`exit_json`: `failed`
marks which of the two was called, `changed` is absent from the dict on the
exception path, and `original_bindings` is the caller's bindings list (as
mutated in place by the confidence check, secrets redacted). -/
structure ModuleResult where
  failed : Bool
  msg : Option ErrMsg
  changed : Option Bool
  original_bindings : Option (List RawBinding)
deriving DecidableEq

/-- Embeds `run_module` (lines 1591-1626): confidence-check the parameters,
process the bindings, catch `NbdeClientClevisError` as a failure result, and
always attach the (redacted) original bindings. An uncaught Python exception
propagates. -/
def runModule (env : Env) (os : OsOps) (rawBindings : Option (List RawBinding))
    (dataDir : Option String) (checkMode : Bool) : M ModuleResult := fun w =>
  match bindingsConfidenceCheck os rawBindings dataDir checkMode with
  | (_, some e, mutated) =>
    (.ok { failed := true, msg := some (.plain e), changed := some false,
           original_bindings := mutated.map obscureBindings }, w)
  | (none, none, _) => (.crash "unreachable", w)
  | (some bindings, none, _) =>
    match processBindings env checkMode bindings w with
    | (.ok r, w2) =>
      (.ok { failed := false, msg := none, changed := some r.changed,
             original_bindings := some (obscureBindings bindings) }, w2)
    | (.raised e, w2) =>
      (.ok { failed := true, msg := some e.msg, changed := none,
             original_bindings := some (obscureBindings bindings) }, w2)
    | (.crash s, w2) => (.crash s, w2)

/-- An environment whose external tools all fail; witnesses override the
oracles they need. -/
def envBase : Env where
  fetchAdv := fun _ => none
  advKeys := fun _ => none
  thumbprint := fun _ => none
  decrypt := fun _ => none
  encrypt := fun _ _ _ => none
  decodeJweHdr := fun _ => none
  fmtJwe := fun _ _ => none
  tokenJwe := fun _ => none
  jsonLoads := fun _ => none
  pwmake := fun _ => none

/-- Is a traced command the lazy LUKSMeta side-car initialization? -/
def isInitCmd : Cmd → Bool
  | .luksmetaInitCmd _ => true
  | _ => false

/-- The effect of `luksmeta init -f` on a device. -/
def initDev (d : Device) : Device := { d with metaInit := true, meta1 := [] }

/-- The world changed at most by lazily initializing LUKS1 side-car stores:
the key files are untouched, every traced command is a `luksmeta init`, and
every device is either unchanged or was an uninitialized LUKS1 device that
became initialized with an empty store (keyslots, tokens and everything
else preserved). -/
def initExtends (w w2 : World) : Prop :=
  w2.keyfiles = w.keyfiles ∧
  (∃ l, w2.trace = w.trace ++ l ∧ ∀ c ∈ l, isInitCmd c = true) ∧
  ∀ p, alookup p w2.devices = alookup p w.devices ∨
    (∃ d, alookup p w.devices = some d ∧ d.luksType = some "luks1" ∧ d.metaInit = false ∧
      alookup p w2.devices = some (initDev d))

theorem initExtends_refl (w : World) : initExtends w w :=
  ⟨rfl, ⟨[], by simp, by simp⟩, fun _ => .inl rfl⟩

theorem initExtends_trans {w1 w2 w3 : World} (h12 : initExtends w1 w2)
    (h23 : initExtends w2 w3) : initExtends w1 w3 := by
  obtain ⟨hk12, ⟨l1, ht1, hc1⟩, hd12⟩ := h12
  obtain ⟨hk23, ⟨l2, ht2, hc2⟩, hd23⟩ := h23
  refine ⟨by rw [hk23, hk12], ⟨l1 ++ l2, by rw [ht2, ht1, List.append_assoc], ?_⟩, ?_⟩
  · intro c hc
    rcases List.mem_append.mp hc with h | h
    · exact hc1 c h
    · exact hc2 c h
  · intro p
    rcases hd23 p with h23p | ⟨d, hd, hl, hm, hd2⟩
    · rcases hd12 p with h12p | ⟨e, he, hle, hme, he2⟩
      · exact .inl (by rw [h23p, h12p])
      · exact .inr ⟨e, he, hle, hme, by rw [h23p, he2]⟩
    · rcases hd12 p with h12p | ⟨e, he, hle, hme, he2⟩
      · exact .inr ⟨d, by rw [← h12p]; exact hd, hl, hm, hd2⟩
      · rw [he2] at hd
        injection hd with hd
        rw [← hd] at hm
        simp [initDev] at hm

/-- Composition: a world-preserving step followed by world-preserving
continuations preserves the world (state monad). -/
theorem stw_bind {α β : Type} {x : St α} {f : α → St β} (hx : ∀ w, (x w).2 = w)
    (hf : ∀ a w, ((f a) w).2 = w) : ∀ w, ((x >>= f) w).2 = w := by
  intro w
  show ((f (x w).1) (x w).2).2 = w
  rw [hx w]
  exact hf _ w

/-- Composition for `initExtends` through the state monad. -/
theorem sti_bind {α β : Type} {x : St α} {f : α → St β}
    (hx : ∀ w, initExtends w ((x w).2)) (hf : ∀ a w, initExtends w (((f a) w).2)) :
    ∀ w, initExtends w (((x >>= f) w).2) := by
  intro w
  show initExtends w (((f (x w).1) (x w).2).2)
  exact initExtends_trans (hx w) (hf _ _)

/-- Composition: world preservation through the exception monad. -/
theorem mw_bind {α β : Type} {x : M α} {f : α → M β} (hx : ∀ w, (x w).2 = w)
    (hf : ∀ a w, ((f a) w).2 = w) : ∀ w, ((x >>= f) w).2 = w := by
  intro w
  show (match x w with
    | (.ok a, w2) => f a w2
    | (.raised e, w2) => (.raised e, w2)
    | (.crash s, w2) => (.crash s, w2)).2 = w
  cases hx2 : x w with
  | mk r w2 =>
    have hw : w2 = w := by have h := hx w; rw [hx2] at h; exact h
    cases r with
    | ok a => rw [hf a w2]; exact hw
    | raised e => exact hw
    | crash s => exact hw

/-- Composition for `initExtends` through the exception monad. -/
theorem mi_bind {α β : Type} {x : M α} {f : α → M β}
    (hx : ∀ w, initExtends w ((x w).2)) (hf : ∀ a w, initExtends w (((f a) w).2)) :
    ∀ w, initExtends w (((x >>= f) w).2) := by
  intro w
  show initExtends w ((match x w with
    | (.ok a, w2) => f a w2
    | (.raised e, w2) => (.raised e, w2)
    | (.crash s, w2) => (.crash s, w2)).2)
  cases hx2 : x w with
  | mk r w2 =>
    have hw2 : initExtends w w2 := by have := hx w; rw [hx2] at this; exact this
    cases r with
    | ok a => exact initExtends_trans hw2 (hf a w2)
    | raised e => exact hw2
    | crash s => exact hw2

theorem mLift_world {α : Type} {x : St α} (hx : ∀ w, (x w).2 = w) :
    ∀ w, ((mLift x) w).2 = w := fun w => hx w

theorem mLift_init {α : Type} {x : St α} (hx : ∀ w, initExtends w ((x w).2)) :
    ∀ w, initExtends w (((mLift x) w).2) := fun w => hx w

theorem mExc_world {α : Type} (x : Except String α) (w : World) : ((mExc x) w).2 = w := by
  cases x <;> rfl

/-- Spec-side reading of "the server string already carries a URL scheme":
it contains `://` (as in `http://host` or `tang://host`). -/
def hasUrlScheme (s : String) : Bool := strContainsSub s "://"

/-- The advertisement URL the claim describes: `<server>/adv` with `http://`
prefixed exactly when the server string carries no URL scheme. -/
def claimAdvUrl (server : String) : String :=
  (if !hasUrlScheme server then "http://" ++ server else server) ++ "/adv"

/-- The advertisement URL as the amended claim describes it: `<server>/adv`
with `http://` prefixed exactly when the server string does not start with
the four characters `http`. -/
def amendedAdvUrl (server : String) : String :=
  (if pyStartsWith server "http" then server else "http://" ++ server) ++ "/adv"

/-- C9 counterexample: the code keys the prefix on `startswith("http")`, not
on the presence of a URL scheme. The scheme-less server `httpd.example.com`
gets no prefix (its URL differs from the claim's), while `ftp://srv`, which
does carry a scheme, gets one. -/
theorem c9_url_prefix_counterexample :
    hasUrlScheme "httpd.example.com" = false ∧
    downloadAdvUrl "httpd.example.com" = "httpd.example.com/adv" ∧
    claimAdvUrl "httpd.example.com" = "http://httpd.example.com/adv" ∧
    downloadAdvUrl "httpd.example.com" ≠ claimAdvUrl "httpd.example.com" ∧
    hasUrlScheme "ftp://srv" = true ∧
    downloadAdvUrl "ftp://srv" = "http://ftp://srv/adv" := by
  refine ⟨rfl, rfl, rfl, ?_, rfl, rfl⟩
  decide

/-- C9 (amended): for every server string, the advertisement is fetched by
an HTTP GET of `<server>/adv`, where the prefix `http://` is added exactly
when the server string does not start with `http`; this agrees with the
scheme-based rule whenever the two conditions coincide. -/
theorem c9_url_prefix_amended (env : Env) (server : String) :
    downloadAdv env server =
      (match env.fetchAdv (amendedAdvUrl server) with
       | none => (none, some "download_adv: fetch failed or malformed JSON")
       | some j => (some j, none)) ∧
    (pyStartsWith server "http" = hasUrlScheme server →
      downloadAdvUrl server = claimAdvUrl server) := by
  constructor
  · unfold downloadAdv downloadAdvUrl amendedAdvUrl
    cases h : pyStartsWith server "http" <;> simp [h]
  · intro h
    unfold downloadAdvUrl claimAdvUrl
    rw [h]

/-- C9 witness: the amended theorem applied at `tang.example`, which neither
starts with `http` nor carries a scheme. -/
theorem c9_url_prefix_witness :
    downloadAdvUrl "tang.example" = claimAdvUrl "tang.example" :=
  (c9_url_prefix_amended envBase "tang.example").2 (by decide)

theorem mem_keyInsert_self (ks : List String) (k : String) : k ∈ keyInsert ks k := by
  unfold keyInsert
  by_cases h : ks.contains k
  · simp only [h, if_true]
    exact List.mem_of_elem_eq_true h
  · simp only [h, if_false]
    exact List.mem_append_right ks (List.mem_singleton.mpr rfl)

theorem mem_keyInsert_of_mem {a : String} {ks : List String} (k : String) (h : a ∈ ks) :
    a ∈ keyInsert ks k := by
  unfold keyInsert
  by_cases hc : ks.contains k
  · simp only [hc, if_true]; exact h
  · simp only [hc, if_false]; exact List.mem_append_left _ h

theorem mem_keyMerge_left {a : String} :
    ∀ (more acc : List String), a ∈ acc → a ∈ keyMerge acc more := by
  intro more
  induction more with
  | nil => intro acc h; exact h
  | cons k more ih =>
    intro acc h
    exact ih (keyInsert acc k) (mem_keyInsert_of_mem k h)

theorem mem_keyMerge_right {a : String} :
    ∀ (more acc : List String), a ∈ more → a ∈ keyMerge acc more := by
  intro more
  induction more with
  | nil => intro acc h; cases h
  | cons k more ih =>
    intro acc h
    rcases List.mem_cons.mp h with h | h
    · subst h
      exact mem_keyMerge_left more (keyInsert acc a) (mem_keyInsert_self acc a)
    · exact ih (keyInsert acc k) h

/-- The per-server loop of `generate_config`, when every advertisement fetch
succeeds: it appends one `url`/`adv` config per server in order and folds
every advertisement's key thumbprints into the key set. -/
theorem generateConfigLoop_ok (env : Env) (adv : String → Json) :
    ∀ (servers : List String) (cfgs : List Json) (keys : List String),
    (∀ s ∈ servers, env.fetchAdv (downloadAdvUrl s) = some (adv s)) →
    generateConfigLoop env servers (cfgs, keys) =
      ((cfgs ++ servers.map (fun s => Json.obj [("url", .str s), ("adv", adv s)]),
        servers.foldl (fun acc s => keyMerge acc (keysFromAdv env (adv s))) keys), none) := by
  intro servers
  induction servers with
  | nil => intro cfgs keys _; simp [generateConfigLoop]
  | cons s rest ih =>
    intro cfgs keys h
    have hs : env.fetchAdv (downloadAdvUrl s) = some (adv s) := h s (List.mem_cons_self s rest)
    have hrest : ∀ x ∈ rest, env.fetchAdv (downloadAdvUrl x) = some (adv x) :=
      fun x hx => h x (List.mem_cons_of_mem s hx)
    simp only [generateConfigLoop, downloadAdv, hs]
    rw [ih _ _ hrest]
    simp [List.append_assoc]

/-- The per-server loop of `generate_config` reports an error whenever some
server's advertisement fetch fails. -/
theorem generateConfigLoop_err (env : Env) :
    ∀ (servers : List String) (acc : List Json × List String),
    (∃ s ∈ servers, env.fetchAdv (downloadAdvUrl s) = none) →
    (generateConfigLoop env servers acc).2.isSome := by
  intro servers
  induction servers with
  | nil => intro acc h; rcases h with ⟨s, hs, _⟩; cases hs
  | cons s rest ih =>
    intro acc h
    cases acc with
    | mk cfgs keys =>
      cases hf : env.fetchAdv (downloadAdvUrl s) with
      | none => simp [generateConfigLoop, downloadAdv, hf]
      | some a =>
        have : ∃ x ∈ rest, env.fetchAdv (downloadAdvUrl x) = none := by
          rcases h with ⟨x, hx, hxf⟩
          rcases List.mem_cons.mp hx with rfl | hx2
          · rw [hf] at hxf; cases hxf
          · exact ⟨x, hx2, hxf⟩
        simp only [generateConfigLoop, downloadAdv, hf]
        exact ih _ this

theorem mem_serverFold (env : Env) (adv : String → Json) {k : String} :
    ∀ (servers : List String) (keys : List String),
    (k ∈ keys ∨ ∃ s ∈ servers, k ∈ keysFromAdv env (adv s)) →
    k ∈ servers.foldl (fun acc s => keyMerge acc (keysFromAdv env (adv s))) keys := by
  intro servers
  induction servers with
  | nil =>
    intro keys h
    rcases h with h | ⟨s, hs, _⟩
    · exact h
    · cases hs
  | cons s rest ih =>
    intro keys h
    simp only [List.foldl_cons]
    apply ih
    rcases h with h | ⟨x, hx, hk⟩
    · exact .inl (mem_keyMerge_left _ _ h)
    · rcases List.mem_cons.mp hx with rfl | hx2
      · exact .inl (mem_keyMerge_right _ _ hk)
      · exact .inr ⟨x, hx2, hk⟩

/-- C6: `generate_config` returns no pin for an empty server list; pin
`tang` with the single server's url/adv config for one server; pin `sss`
with the given threshold wrapping one tang child per server for several
servers; it collects every advertisement key's thumbprint into the returned
key set, and any advertisement fetch failure aborts the build with an
error. -/
theorem c6_generate_config (env : Env) (adv : String → Json) (threshold : Int) :
    (∀ t : Int, generateConfig env [] t = (none, none, [], none)) ∧
    (∀ s : String, env.fetchAdv (downloadAdvUrl s) = some (adv s) →
      generateConfig env [s] threshold =
        (some "tang", some (dumpJson (.obj [("url", .str s), ("adv", adv s)])),
         keyMerge [] (keysFromAdv env (adv s)), none)) ∧
    (∀ servers : List String, 1 < servers.length →
      (∀ s ∈ servers, env.fetchAdv (downloadAdvUrl s) = some (adv s)) →
      generateConfig env servers threshold =
        (some "sss",
         some (dumpJson (.obj [("t", .num threshold),
           ("pins", .obj [("tang",
             .arr (servers.map (fun s => Json.obj [("url", .str s), ("adv", adv s)])))])])),
         servers.foldl (fun acc s => keyMerge acc (keysFromAdv env (adv s))) [], none)) ∧
    (∀ servers : List String, (∀ s ∈ servers, env.fetchAdv (downloadAdvUrl s) = some (adv s)) →
      ∀ s ∈ servers, ∀ k ∈ keysFromAdv env (adv s),
        k ∈ (generateConfig env servers threshold).2.2.1) ∧
    (∀ servers : List String, (∃ s ∈ servers, env.fetchAdv (downloadAdvUrl s) = none) →
      (generateConfig env servers threshold).2.2.2.isSome) := by
  refine ⟨fun t => rfl, ?_, ?_, ?_, ?_⟩
  · intro s hs
    have h : ∀ x ∈ [s], env.fetchAdv (downloadAdvUrl x) = some (adv x) := by
      intro x hx; rcases List.mem_singleton.mp hx with rfl; exact hs
    unfold generateConfig
    rw [generateConfigLoop_ok env adv [s] [] [] h]
    simp [keyMerge]
  · intro servers hlen h
    unfold generateConfig
    have hne : ¬ servers.isEmpty := by
      cases servers with
      | nil => simp at hlen
      | cons a l => simp
    rw [if_neg hne, generateConfigLoop_ok env adv servers [] [] h]
    have : servers.length > 1 := hlen
    simp [this]
  · intro servers h s hs k hk
    cases hemp : servers.isEmpty with
    | true =>
      cases servers with
      | nil => cases hs
      | cons a l => simp at hemp
    | false =>
      unfold generateConfig
      rw [if_neg (by rw [hemp]; exact Bool.false_ne_true), generateConfigLoop_ok env adv servers [] [] h]
      have hmem : k ∈ servers.foldl (fun acc s => keyMerge acc (keysFromAdv env (adv s))) [] :=
        mem_serverFold env adv servers [] (.inr ⟨s, hs, hk⟩)
      by_cases hl : servers.length > 1 <;> simp [hl, hmem]
  · intro servers h
    have hne : ¬ servers.isEmpty := by
      rcases h with ⟨s, hs, _⟩
      cases servers with
      | nil => cases hs
      | cons a l => simp
    unfold generateConfig
    rw [if_neg hne]
    cases hloop : generateConfigLoop env servers ([], []) with
    | mk acc err =>
      have := generateConfigLoop_err env servers ([], []) h
      rw [hloop] at this
      cases err with
      | none => simp at this
      | some e => simp

/-- C6 witness: the theorem applied to a two-server environment with one
advertisement key each. -/
theorem c6_generate_config_witness :
    generateConfig
      { envBase with
        fetchAdv := fun u => if u = "http://a/adv" then some (.str "advA")
          else if u = "http://b/adv" then some (.str "advB") else none,
        advKeys := fun s => if s = "\x22advA\x22" then some [.str "ka"]
          else if s = "\x22advB\x22" then some [.str "kb"] else none,
        thumbprint := fun s => if s = "\x22ka\x22" then some "FA"
          else if s = "\x22kb\x22" then some "FB" else none }
      ["a", "b"] 2 =
      (some "sss",
       some (dumpJson (.obj [("t", .num 2),
         ("pins", .obj [("tang",
           .arr [.obj [("url", .str "a"), ("adv", .str "advA")],
                 .obj [("url", .str "b"), ("adv", .str "advB")]])])])),
       ["FA", "FB"], none) := by
  have h := (c6_generate_config
    { envBase with
      fetchAdv := fun u => if u = "http://a/adv" then some (.str "advA")
        else if u = "http://b/adv" then some (.str "advB") else none,
      advKeys := fun s => if s = "\x22advA\x22" then some [.str "ka"]
        else if s = "\x22advB\x22" then some [.str "kb"] else none,
      thumbprint := fun s => if s = "\x22ka\x22" then some "FA"
        else if s = "\x22kb\x22" then some "FB" else none }
    (fun s => if s = "a" then .str "advA" else .str "advB") 2).2.2.1
  rw [h ["a", "b"] (by decide) (by
    intro s hs
    rcases List.mem_cons.mp hs with rfl | hs2
    · rfl
    · rcases List.mem_singleton.mp hs2 with rfl; rfl)]
  rfl

/-- The per-binding normalization facts of claim C10: the state was legal
(missing becomes `present`), the device was present and is preserved, and
slot, threshold, password_temporary and servers default to 1, 1, false and
the empty list. -/
def normalizedFacts (b nb : RawBinding) : Prop :=
  (b.state = none ∨ b.state = some "present" ∨ b.state = some "absent") ∧
  nb.state = some (b.state.getD "present") ∧
  nb.device = b.device ∧ b.device.isSome = true ∧
  nb.slot = some (b.slot.getD 1) ∧
  nb.threshold = some (b.threshold.getD 1) ∧
  nb.password_temporary = some (b.password_temporary.getD false) ∧
  nb.servers = some (b.servers.getD [])

theorem applyBindingDefaults_facts {b nb : RawBinding}
    (h : applyBindingDefaults b = (nb, none)) :
    nb.state = b.state ∧ nb.device = b.device ∧
    nb.slot = some (b.slot.getD 1) ∧ nb.threshold = some (b.threshold.getD 1) ∧
    nb.password_temporary = some (b.password_temporary.getD false) ∧
    nb.servers = some (b.servers.getD []) := by
  unfold applyBindingDefaults at h
  injection h with h1 _
  subst h1
  exact ⟨rfl, rfl, rfl, rfl, rfl, rfl⟩

theorem normalizeBindingDevice_facts {os : OsOps} {dataDir : Option String}
    {checkMode : Bool} {b nb : RawBinding}
    (h : normalizeBindingDevice os dataDir checkMode b = (nb, none)) :
    nb.state = b.state ∧ nb.device = b.device ∧ b.device.isSome = true ∧
    nb.slot = some (b.slot.getD 1) ∧ nb.threshold = some (b.threshold.getD 1) ∧
    nb.password_temporary = some (b.password_temporary.getD false) ∧
    nb.servers = some (b.servers.getD []) := by
  cases hd : b.device with
  | none =>
    simp only [normalizeBindingDevice, hd] at h
    injection h with h1 h2
    cases h2
  | some dev =>
    simp only [normalizeBindingDevice, hd] at h
    by_cases hk : (b.encryption_key.isSome || b.encryption_key_src.isSome) && !checkMode
    · rw [if_pos hk] at h
      cases hdd : dataDir with
      | none =>
        simp only [hdd] at h
        injection h with h1 h2
        cases h2
      | some dd =>
        simp only [hdd] at h
        by_cases he : dd.isEmpty
        · rw [if_pos he] at h; cases h
        · rw [if_neg he] at h
          have hf := applyBindingDefaults_facts h
          simpa [hd] using hf
    · rw [if_neg hk] at h
      have hf := applyBindingDefaults_facts h
      simpa [hd] using hf

theorem normalizeBinding_facts {os : OsOps} {dataDir : Option String}
    {checkMode : Bool} {b nb : RawBinding}
    (h : normalizeBinding os dataDir checkMode b = (nb, none)) : normalizedFacts b nb := by
  cases hs : b.state with
  | none =>
    simp only [normalizeBinding, hs] at h
    have hf := normalizeBindingDevice_facts h
    refine ⟨.inl hs, ?_, ?_, ?_, ?_, ?_, ?_, ?_⟩ <;> simp_all
  | some st =>
    simp only [normalizeBinding, hs] at h
    by_cases hst : st == "present" || st == "absent"
    · rw [if_pos hst] at h
      have hf := normalizeBindingDevice_facts h
      have hst2 : st = "present" ∨ st = "absent" := by
        rcases Bool.or_eq_true_iff.mp hst with h2 | h2
        · exact .inl (by simpa using h2)
        · exact .inr (by simpa using h2)
      refine ⟨?_, ?_, ?_, ?_, ?_, ?_, ?_, ?_⟩ <;> simp_all [normalizedFacts]
    · rw [if_neg hst] at h
      cases h

theorem confidenceLoop_facts (os : OsOps) (dataDir : Option String) (checkMode : Bool) :
    ∀ (l acc : List RawBinding) {out m : List RawBinding},
    bindingsConfidenceCheckLoop os dataDir checkMode l acc = (some out, none, m) →
    m = out ∧ ∃ suffix, out = acc ++ suffix ∧ List.Forall₂ normalizedFacts l suffix := by
  intro l
  induction l with
  | nil =>
    intro acc out m h
    unfold bindingsConfidenceCheckLoop at h
    injection h with h1 h2
    injection h1 with h1
    injection h2 with h2a h2b
    subst h1
    exact ⟨by rw [← h2b], [], by simp, List.Forall₂.nil⟩
  | cons b rest ih =>
    intro acc out m h
    unfold bindingsConfidenceCheckLoop at h
    cases hn : normalizeBinding os dataDir checkMode b with
    | mk b2 errOpt =>
      rw [hn] at h
      cases errOpt with
      | some e => cases h
      | none =>
        obtain ⟨hm, suffix, hout, hrel⟩ := ih (acc ++ [b2]) h
        exact ⟨hm, b2 :: suffix, by simp [hout], List.Forall₂.cons (normalizeBinding_facts hn) hrel⟩

/-- C10: a missing or empty bindings list makes the whole run fail with the
message `No devices set` before any device operation (the world is
untouched); an accepted non-empty list is normalized binding by binding:
state defaults to `present` (anything else than present/absent would have
failed), the device must have been present, and slot, threshold,
password_temporary and servers default to 1, 1, false and the empty list. -/
theorem c10_confidence_check (env : Env) (os : OsOps) (dataDir : Option String)
    (checkMode : Bool) :
    (∀ w : World, runModule env os none dataDir checkMode w =
      (.ok { failed := true, msg := some (.plain "No devices set"), changed := some false,
             original_bindings := none }, w)) ∧
    (∀ w : World, runModule env os (some []) dataDir checkMode w =
      (.ok { failed := true, msg := some (.plain "No devices set"), changed := some false,
             original_bindings := some [] }, w)) ∧
    (∀ (l out : List RawBinding) (m : Option (List RawBinding)),
      bindingsConfidenceCheck os (some l) dataDir checkMode = (some out, none, m) →
      List.Forall₂ normalizedFacts l out) := by
  refine ⟨fun w => rfl, fun w => rfl, ?_⟩
  intro l out m h
  simp only [bindingsConfidenceCheck] at h
  by_cases he : l.isEmpty
  · rw [if_pos he] at h; cases h
  · rw [if_neg he] at h
    cases hloop : bindingsConfidenceCheckLoop os dataDir checkMode l [] with
    | mk res rest =>
      cases rest with
      | mk errOpt mutated =>
        rw [hloop] at h
        injection h with h1 h2
        injection h2 with h2a h2b
        subst h1 h2a
        obtain ⟨_, suffix, hout, hrel⟩ := confidenceLoop_facts os dataDir checkMode l [] hloop
        rw [hout]
        simpa using hrel

/-- C10 witness: a one-element list with everything defaulted is accepted
and normalized as the claim states. -/
theorem c10_confidence_check_witness :
    List.Forall₂ normalizedFacts
      [{ device := some "d", state := none, slot := none, threshold := none,
         password_temporary := none, servers := none, encryption_password := none,
         encryption_key := none, encryption_key_src := none }]
      [{ device := some "d", state := some "present", slot := some 1, threshold := some 1,
         password_temporary := some false, servers := some [], encryption_password := none,
         encryption_key := none, encryption_key_src := none }] := by
  have h := (c10_confidence_check envBase
    { basename := id, joinPath := fun a b => a ++ "/" ++ b, quote := id } none false).2.2
  exact h _ _ _ rfl

/-- C3: for a bound slot whose decoded policy references a key fingerprint F
that the freshly fetched advertisement key set does not contain,
`already_bound` returns false and forces a rebind — even when the blob
decrypts, the decrypted secret opens the slot, and the decoded pin and
config equal the desired policy. -/
theorem c3_key_rotation_forces_rebind (env : Env) (w : World) (device : String) (slot : Int)
    (auth : Option String) (cfgStr : String) (keySet : List String) (jwe decrypted : String)
    (policy cleaned decPolicy : Json) (pinOpt : Option String) (keys : List String) (F : String)
    (h1 : getJwe env false device (toString slot) w = ((some jwe, none), w))
    (h2 : env.decrypt jwe = some decrypted)
    (h3 : validPassphrase device (some decrypted) false (some (toString slot)) w
      = ((true, none), w))
    (h4 : env.jsonLoads cfgStr = some policy)
    (h5 : cleanPolicy auth policy = .ok cleaned)
    (h6 : decodePinConfig env recLimit (.str jwe) = .ok (pinOpt, some decPolicy, keys, none))
    (h7 : pinOpt = auth)
    (h8 : pyJsonEq decPolicy cleaned = true)
    (h9 : F ∈ keys)
    (h10 : keySet.contains F = false) :
    alreadyBound env device slot auth (some cfgStr) keySet w = (.ok false, w) := by
  have hall : keys.all (fun k => keySet.contains k) = false := by
    apply Bool.eq_false_iff.mpr
    intro htrue
    have hF := List.all_eq_true.mp htrue F h9
    rw [h10] at hF
    cases hF
  simp only [alreadyBound, m_bind_apply, mLift, mExc, decryptJwe, h1, h2, h3, h4, h5, h6, h7, h8,
    hall]
  split <;> rfl

/-- A LUKS1 device bound at slot 1 with blob `BLOB` and slot passphrase
`s1`, for the key-rotation witness. -/
def c3TestDev : Device where
  luksType := some "luks1"
  metaInit := true
  slots := [("1", "s1")]
  meta1 := [("1", "BLOB")]
  tokens := []
  keyBits := some "256"

def c3TestWorld : World := { devices := [("d", c3TestDev)], keyfiles := [], trace := [] }

/-- The protected header of `BLOB`: a tang pin at url `u` whose
advertisement carries one key (thumbprint `F`). -/
def c3TestHdr : Json :=
  .obj [("clevis", .obj [("pin", .str "tang"),
    ("tang", .obj [("url", .str "u"), ("adv", .obj [("keys", .arr [.obj []])])])])]

def c3TestEnv : Env := { envBase with
  decrypt := fun j => if j = "BLOB" then some "s1" else none,
  jsonLoads := fun s => if s = "CFG" then some (.obj [("url", .str "u"), ("adv", .null)]) else none,
  decodeJweHdr := fun j => if j = "BLOB" then some c3TestHdr else none,
  thumbprint := fun _ => some "F" }

/-- C3 witness: in the concrete world above, the binding passes checks 1-4
(decrypts, opens the slot, pin and config match) and its decoded key set is
the single fingerprint `F`; with an advertisement key set not containing
`F`, `already_bound` is false. -/
theorem c3_key_rotation_witness :
    alreadyBound c3TestEnv "d" 1 (some "tang") (some "CFG") [] c3TestWorld
      = (.ok false, c3TestWorld) := by
  exact c3_key_rotation_forces_rebind c3TestEnv c3TestWorld "d" 1 (some "tang") "CFG" []
    "BLOB" "s1" (.obj [("url", .str "u"), ("adv", .null)]) (.obj [("url", .str "u")])
    (.obj [("url", .str "u")]) (some "tang") ["F"] "F"
    rfl rfl rfl rfl rfl rfl rfl rfl (List.mem_singleton.mpr rfl) rfl

/-- C8: `new_pass_jwe` generates a fresh key, encrypts it, then immediately
decrypts the produced blob; when the external encrypt reports success but
decryption fails or yields anything other than the generated key, it
returns an error, and `bind_slot` stops right there: its result is that
error and the world stays exactly as it was after credential resolution —
no keyslot or metadata step runs with that blob. -/
theorem c8_encrypt_verify (env : Env) (w wa wb : World) (device : String) (slot : Int)
    (pin cfg : String) (pass vpass : Option String) (vkf isKeyfile : Bool)
    (overwrite temp : Bool) (key jwe : String)
    (hc : canBindSlot env device slot overwrite w = ((true, none), wa))
    (hv : getValidPassphrase env device pass isKeyfile temp wa = ((vpass, vkf, none), wb))
    (hk : newKey env device wb = ((some key, none), wb))
    (he : env.encrypt pin cfg key = some jwe)
    (hd : env.decrypt jwe ≠ some key) :
    newPassJwe env device (some pin) (some cfg) wb
      = (.ok (none, none, some "Error generating new passphrase"), wb) ∧
    bindSlot env device slot (some pin) (some cfg) pass isKeyfile overwrite temp w
      = (.ok (false, some "Error generating new passphrase"), wb) := by
  have hnp : newPassJwe env device (some pin) (some cfg) wb
      = (.ok (none, none, some "Error generating new passphrase"), wb) := by
    simp only [newPassJwe, m_bind_apply, mLift, hk, he]
    cases hdec : env.decrypt jwe with
    | none => simp [decryptJwe, hdec, m_pure_apply]
    | some d =>
      have hne : (d == key) = false := by
        apply Bool.eq_false_iff.mpr
        intro hb
        exact hd (by rw [hdec, beq_iff_eq.mp hb])
      simp [decryptJwe, hdec, hne, m_pure_apply]
  refine ⟨hnp, ?_⟩
  simp only [bindSlot, m_bind_apply, mLift, hc, hv, hnp]
  rfl

/-- A LUKS1 device with an unbound slot 2 and passphrase `p` in slot 1, for
the lying-encrypt witness. -/
def c8TestDev : Device where
  luksType := some "luks1"
  metaInit := true
  slots := [("1", "p")]
  meta1 := []
  tokens := []
  keyBits := some "256"

def c8TestWorld : World := { devices := [("d", c8TestDev)], keyfiles := [], trace := [] }

/-- An environment whose `clevis encrypt` reports success with blob `J` but
whose `clevis decrypt` fails on it. -/
def c8TestEnv : Env := { envBase with
  pwmake := fun b => if b = "256" then some "K" else none,
  encrypt := fun pin _cfg key => if pin = "tang" && key = "K" then some "J" else none }

/-- C8 witness: the theorem applied in the concrete lying-encrypt world. -/
theorem c8_encrypt_verify_witness :
    bindSlot c8TestEnv "d" 2 (some "tang") (some "CFG") (some "p") false true false c8TestWorld
      = (.ok (false, some "Error generating new passphrase"), c8TestWorld) := by
  exact (c8_encrypt_verify c8TestEnv c8TestWorld c8TestWorld c8TestWorld "d" 2 "tang" "CFG"
    (some "p") (some "p") false false true false "K" "J"
    rfl rfl rfl rfl (by intro h; cases h)).2

/-- A LUKS1 device whose slot 1 is clevis-bound with blob `OLD` and opened
by passphrase `p_old`, for the rollback scenario of C1. -/
def c1TestDev : Device where
  luksType := some "luks1"
  metaInit := true
  slots := [("1", "p_old")]
  meta1 := [("1", "OLD")]
  tokens := []
  keyBits := some "256"

def c1TestWorld : World := { devices := [("d", c1TestDev)], keyfiles := [], trace := [] }

/-- An environment where the generated key is `K` and `clevis encrypt`
produces the blob `J` followed by a newline; the round-trip decrypt check in
`new_pass_jwe` passes, but the LUKS1 read-back verification compares the
`rstrip`-ped loaded blob `J` against the saved `J\n` and fails. -/
def c1TestEnv : Env := { envBase with
  pwmake := fun b => if b = "256" then some "K" else none,
  encrypt := fun pin _cfg key => if pin = "tang" && key = "K" then some "J\n" else none,
  decrypt := fun j => if j = "J\n" then some "K" else none }

/-- The rebind attempt of the C1 scenario: slot 1 of `d` is already bound,
the supplied passphrase `p_old` is valid, and the metadata write's read-back
verification fails after the keyslot passphrase has been updated. -/
def c1TestRun : Res (Bool × Option String) × World :=
  (bindSlot c1TestEnv "d" 1 (some "tang") (some "CFG") (some "p_old") false true false) c1TestWorld

/-- C1: the rollback property fails on the code. In the scenario above the
bind attempt on an already-bound slot takes the prepare-to-rebind backup and
then fails the metadata read-back verification (the save-slot error message
even claims `no changes performed`), yet the device does NOT return to its
pre-bind state: the slot's passphrase is now the newly generated key `K`
(the old passphrase `p_old` no longer opens the device) and the slot
carries no metadata blob at all (the old blob `OLD` is gone). -/
theorem c1_rollback_gap_eval :
    (alookup "d" c1TestWorld.devices).map (fun d => d.slots) = some [("1", "p_old")] ∧
    (alookup "d" c1TestWorld.devices).map (fun d => d.meta1) = some [("1", "OLD")] ∧
    c1TestRun.1 = .ok (false, some "Error adding JWE to d:1 ; no changes performed") ∧
    (alookup "d" c1TestRun.2.devices).map (fun d => d.slots) = some [("1", "K")] ∧
    (alookup "d" c1TestRun.2.devices).map (fun d => d.meta1) = some [] ∧
    (testPassphrase "d" (some "p_old") none c1TestWorld).1 = true ∧
    (testPassphrase "d" (some "p_old") none c1TestRun.2).1 = false ∧
    (getJweLuks1 "d" "1" c1TestWorld).1 = (some "OLD", none) ∧
    ((getJweLuks1 "d" "1" c1TestRun.2).1).1 = none :=
  ⟨rfl, rfl, rfl, rfl, rfl, rfl, rfl, rfl, rfl⟩

/-- A device is in a shape where the read path issues no mutation: a LUKS1
device whose side-car store is initialized, or a LUKS2 device. -/
def goodDev (d : Device) : Prop :=
  (d.luksType = some "luks1" ∧ d.metaInit = true) ∨ d.luksType = some "luks2"

/-- Pure view of `get_jwe_luks1` on a device: the stored clevis blob
(right-stripped) when the keyslot is active and an entry exists. -/
def pureGetJwe1 (d : Device) (slot : String) : Option String :=
  if d.metaInit && (d.slots.map Prod.fst).contains slot then
    (alookup slot d.meta1).map pyRstrip
  else none

/-- Pure view of `get_jwe_luks2` on a device: the compact JWE extracted from
the matching clevis token. -/
def pureGetJwe2 (env : Env) (d : Device) (slot : String) : Option String :=
  match findClevisToken slot d.tokens with
  | none => none
  | some (_, tok) => (getJweFromLuks2Token env (dumpJson tok)).1

/-- Pure view of `get_jwe`, valid on `goodDev` devices. -/
def pureGetJwe (env : Env) (d : Device) (slot : String) : Option String :=
  match d.luksType with
  | some t => if t = "luks1" then pureGetJwe1 d slot else pureGetJwe2 env d slot
  | none => none

/-- The secret effectively presented to cryptsetup. -/
def pureEff (w : World) (kf : Bool) (p : String) : Option String :=
  if kf then alookup p w.keyfiles else some p

/-- Pure view of the non-mutating unlock test. -/
def pureTest (d : Device) (sec : Option String) (slot : Option String) : Bool :=
  match sec with
  | none => false
  | some s =>
    match slot with
    | none => d.slots.any (fun p => p.2 == s)
    | some sl => (alookup sl d.slots).any (fun p => p == s)

theorem getLuksType_ok {w : World} {device : String} {d : Device}
    (hd : alookup device w.devices = some d) (hg : goodDev d) (b : Bool) :
    getLuksType b device w = ((d.luksType, none), w) := by
  rcases hg with ⟨hl, hm⟩ | hl
  · simp [getLuksType, hd, hl, hm]
  · simp [getLuksType, hd, hl]

theorem getJweLuks1_val {w : World} {device : String} {d : Device}
    (hd : alookup device w.devices = some d) (slot : String) :
    ∃ e, getJweLuks1 device slot w = ((pureGetJwe1 d slot, e), w) ∧
      (e.isSome ↔ pureGetJwe1 d slot = none) := by
  simp only [getJweLuks1, hd, pureGetJwe1]
  cases hm : d.metaInit with
  | false => exact ⟨some "luksmeta show failed", by simp⟩
  | true =>
    cases hc : (d.slots.map Prod.fst).contains slot with
    | false => exact ⟨some ("get_jwe_luks1: " ++ device ++ ":" ++ slot ++ " not clevis-bound"),
        by simp⟩
    | true =>
      cases hl : alookup slot d.meta1 with
      | none => exact ⟨some ("get_jwe_luks1: " ++ device ++ ":" ++ slot ++ " not clevis-bound"),
          by simp⟩
      | some data => exact ⟨none, by simp⟩

theorem getJweFromLuks2Token_shape (env : Env) (t : String) :
    (∃ j, getJweFromLuks2Token env t = (some j, none)) ∨
    (∃ e, getJweFromLuks2Token env t = (none, some e)) := by
  cases h1 : env.tokenJwe t with
  | none =>
    exact .inr ⟨"get_jwe_from_luks2_token: jose fmt failed",
      by simp [getJweFromLuks2Token, h1]⟩
  | some jo =>
    cases h3 : env.fmtJwe true jo with
    | none =>
      exact .inr ⟨"get_jwe_from_luks2_token: " ++ "jose jwe fmt failed",
        by simp [getJweFromLuks2Token, formatJweP, h1, h3]⟩
    | some v =>
      exact .inl ⟨pyRstrip v, by simp [getJweFromLuks2Token, formatJweP, h1, h3]⟩

theorem getJweLuks2_val {w : World} {device : String} {d : Device}
    (hd : alookup device w.devices = some d) (env : Env) (slot : String) :
    ∃ tid e, getJweLuks2 env device slot w = ((pureGetJwe2 env d slot, tid, e), w) ∧
      (e.isSome ↔ pureGetJwe2 env d slot = none) := by
  cases hf : findClevisToken slot d.tokens with
  | none =>
    refine ⟨none, some ("get_jwe_luks2: " ++ device ++ ":" ++ slot ++ " not clevis-bound"),
      ?_, ?_⟩
    · simp [getJweLuks2, hd, hf, pureGetJwe2]
    · simp [pureGetJwe2, hf]
  | some p =>
    obtain ⟨tid, tok⟩ := p
    rcases getJweFromLuks2Token_shape env (dumpJson tok) with ⟨j, hj⟩ | ⟨e, hj⟩
    · refine ⟨some (toString tid), none, ?_, ?_⟩
      · simp [getJweLuks2, hd, hf, hj, pureGetJwe2]
      · simp [pureGetJwe2, hf, hj]
    · refine ⟨none, some ("get_jwe_luks2: " ++ e), ?_, ?_⟩
      · simp [getJweLuks2, hd, hf, hj, pureGetJwe2]
      · simp [pureGetJwe2, hf, hj]

theorem getJwe_val {w : World} {device : String} {d : Device}
    (hd : alookup device w.devices = some d) (hg : goodDev d) (env : Env) (b : Bool)
    (slot : String) :
    ∃ e, getJwe env b device slot w = ((pureGetJwe env d slot, e), w) ∧
      (e.isSome ↔ pureGetJwe env d slot = none) := by
  have hlt := getLuksType_ok hd hg b
  rcases hg with ⟨hl, _⟩ | hl
  · obtain ⟨e, he, hiff⟩ := getJweLuks1_val hd slot
    refine ⟨e, ?_, by simpa [pureGetJwe, hl] using hiff⟩
    show (getLuksType b device >>= _) w = _
    rw [st_bind_apply, hlt]
    simpa [pureGetJwe, hl] using he
  · obtain ⟨tid, e, he, hiff⟩ := getJweLuks2_val hd env slot
    refine ⟨e, ?_, by simpa [pureGetJwe, hl] using hiff⟩
    show (getLuksType b device >>= _) w = _
    rw [st_bind_apply, hlt]
    simp only [hl, pureGetJwe, Option.isSome_none, Bool.false_eq_true, if_false]
    have hne : ((some "luks2" : Option String) = some "luks1") = False := by simp
    simp only [hne, if_false]
    show (getJweLuks2 env device slot >>= _) w = _
    rw [st_bind_apply, he]
    rfl

theorem isSlotBound_val {w : World} {device : String} {d : Device}
    (hd : alookup device w.devices = some d) (hg : goodDev d) (env : Env) (slot : String) :
    ∃ e, isSlotBound env device slot w = (((pureGetJwe env d slot).isSome, e), w) ∧
      (e.isSome ↔ pureGetJwe env d slot = none) := by
  obtain ⟨e, he, hiff⟩ := getJwe_val hd hg env true slot
  cases hp : pureGetJwe env d slot with
  | none =>
    have he2 : e.isSome := hiff.mpr hp
    obtain ⟨ev, hev⟩ := Option.isSome_iff_exists.mp he2
    refine ⟨some ev, ?_, by simp⟩
    show (getJwe env true device slot >>= _) w = _
    rw [st_bind_apply, he]
    simp [hp, hev]
  | some j =>
    have he2 : e = none := by
      cases e with
      | none => rfl
      | some x => exact absurd (hiff.mp (by simp)) (by simp [hp])
    refine ⟨none, ?_, by simp [hp]⟩
    show (getJwe env true device slot >>= _) w = _
    rw [st_bind_apply, he]
    simp [hp, he2]

theorem testPassphrase_val {w : World} {device : String} {d : Device}
    (hd : alookup device w.devices = some d) (sec : Option String) (slot : Option String) :
    testPassphrase device sec slot w = (pureTest d sec slot, w) := by
  cases sec with
  | none => simp [testPassphrase, pureTest, hd]
  | some s =>
    cases slot with
    | none => simp [testPassphrase, pureTest, hd]
    | some sl => simp [testPassphrase, pureTest, hd]

theorem validPassphrase_val {w : World} {device : String} {d : Device}
    (hd : alookup device w.devices = some d) (pass : Option String) (kf : Bool)
    (slot : Option String) :
    validPassphrase device pass kf slot w =
      ((match pass with
        | none => (false, some "valid_passphrase: passphrase is a required parameter")
        | some p =>
          if pureTest d (pureEff w kf p) slot then (true, none)
          else (false, some ("valid_passphrase: We need a valid passphrase for " ++ device))), w) := by
  cases pass with
  | none => rfl
  | some p =>
    show (effectiveSecret kf p >>= _) w = _
    rw [st_bind_apply]
    have heff : effectiveSecret kf p w = (pureEff w kf p, w) := rfl
    rw [heff]
    show (testPassphrase device (pureEff w kf p) slot >>= _) w = _
    rw [st_bind_apply, testPassphrase_val hd (pureEff w kf p) slot]
    cases ht : pureTest d (pureEff w kf p) slot <;> simp [ht]

theorem keyslotsInUse_val {w : World} {device : String} {d : Device}
    (hd : alookup device w.devices = some d) (hg : goodDev d) (hs : d.slots ≠ []) :
    keyslotsInUse device w = ((some (pySorted (d.slots.map Prod.fst)), none), w) := by
  show (getLuksType true device >>= _) w = _
  rw [st_bind_apply, getLuksType_ok hd hg true]
  have hne : ¬ (d.slots.map Prod.fst).isEmpty := by
    cases hsl : d.slots with
    | nil => exact absurd hsl hs
    | cons a l => simp [hsl]
  rcases hg with ⟨hl, _⟩ | hl <;>
    simp [readDev, hd, hl, st_bind_apply, hne, hs]

theorem boundSlotsLoop_val {w : World} {device : String} {d : Device}
    (hd : alookup device w.devices = some d) (hg : goodDev d) (env : Env) :
    ∀ (slots acc : List String),
    boundSlotsLoop env device slots acc w =
      (acc ++ slots.filter (fun sl => (pureGetJwe env d sl).isSome), w) := by
  intro slots
  induction slots with
  | nil => intro acc; simp [boundSlotsLoop]
  | cons sl rest ih =>
    intro acc
    obtain ⟨e, he, hiff⟩ := isSlotBound_val hd hg env sl
    show (isSlotBound env device sl >>= _) w = _
    rw [st_bind_apply, he]
    cases hp : pureGetJwe env d sl with
    | none =>
      have he2 : e.isSome := hiff.mpr hp
      obtain ⟨ev, hev⟩ := Option.isSome_iff_exists.mp he2
      subst hev
      simpa [hp, List.filter] using ih acc
    | some j =>
      have he2 : e = none := by
        cases e with
        | none => rfl
        | some x => exact absurd (hiff.mp (by simp)) (by simp [hp])
      subst he2
      simpa [hp, List.filter] using ih (acc ++ [sl])

theorem boundSlots_val {w : World} {device : String} {d : Device}
    (hd : alookup device w.devices = some d) (hg : goodDev d) (hs : d.slots ≠ []) (env : Env) :
    boundSlots env device w =
      ((some ((pySorted (d.slots.map Prod.fst)).filter
          (fun sl => (pureGetJwe env d sl).isSome)), none), w) := by
  show (keyslotsInUse device >>= _) w = _
  rw [st_bind_apply, keyslotsInUse_val hd hg hs]
  show (boundSlotsLoop env device _ [] >>= _) w = _
  rw [st_bind_apply, boundSlotsLoop_val hd hg env _ []]
  rfl

/-- The claim's scan, over a given slot list: the first slot whose blob
decrypts to a secret that opens the device wins. -/
def specScan (env : Env) (d : Device) : List String → Option (String × String)
  | [] => none
  | slot :: rest =>
    match pureGetJwe env d slot with
    | none => specScan env d rest
    | some jwe =>
      match env.decrypt jwe with
      | none => specScan env d rest
      | some dec =>
        if d.slots.any (fun p => p.2 == dec) then some (slot, dec)
        else specScan env d rest

theorem retrieveLoop_val {w : World} {device : String} {d : Device}
    (hd : alookup device w.devices = some d) (hg : goodDev d) (env : Env) :
    ∀ slots : List String,
    retrieveLoop env device slots w =
      ((match specScan env d slots with
        | some (sl, dec) => (some sl, some dec, none)
        | none => (none, none, some "No passphrase retrieved")), w) := by
  intro slots
  induction slots with
  | nil => rfl
  | cons sl rest ih =>
    obtain ⟨e, he, hiff⟩ := getJwe_val hd hg env true sl
    show (getJwe env true device sl >>= _) w = _
    rw [st_bind_apply, he]
    cases hp : pureGetJwe env d sl with
    | none =>
      have he2 : e.isSome := hiff.mpr hp
      obtain ⟨ev, hev⟩ := Option.isSome_iff_exists.mp he2
      subst hev
      simpa [specScan, hp] using ih
    | some jwe =>
      have he2 : e = none := by
        cases e with
        | none => rfl
        | some x => exact absurd (hiff.mp (by simp)) (by simp [hp])
      subst he2
      simp only []
      cases hdec : env.decrypt jwe with
      | none => simpa [specScan, hp, hdec, decryptJwe] using ih
      | some dec =>
        simp only [decryptJwe, hdec]
        show (validPassphrase device (some dec) false none >>= _) w = _
        rw [st_bind_apply, validPassphrase_val hd (some dec) false none]
        cases ht : pureTest d (pureEff w false dec) none with
        | false =>
          have hany : d.slots.any (fun p => p.2 == dec) = false := by
            simpa [pureTest, pureEff] using ht
          simpa [specScan, hp, hdec, ht, hany] using ih
        | true =>
          have hany : d.slots.any (fun p => p.2 == dec) = true := by
            simpa [pureTest, pureEff] using ht
          simp [specScan, hp, hdec, ht, hany]

theorem specScan_filter (env : Env) (d : Device) :
    ∀ slots : List String,
    specScan env d (slots.filter (fun sl => (pureGetJwe env d sl).isSome)) =
      specScan env d slots := by
  intro slots
  induction slots with
  | nil => rfl
  | cons sl rest ih =>
    cases hp : pureGetJwe env d sl with
    | none => simpa [List.filter, hp, specScan] using ih
    | some jwe =>
      simp only [List.filter, hp, Option.isSome_some, specScan]
      cases env.decrypt jwe with
      | none => exact ih
      | some dec =>
        by_cases hv : d.slots.any (fun p => p.2 == dec) <;> simp [hv, ih]

theorem retrievePassphrase_val {w : World} {device : String} {d : Device}
    (hd : alookup device w.devices = some d) (hg : goodDev d) (hs : d.slots ≠ []) (env : Env) :
    retrievePassphrase env device w =
      ((match specScan env d (pySorted (d.slots.map Prod.fst)) with
        | some (sl, dec) => (some sl, some dec, none)
        | none => (none, none, some "No passphrase retrieved")), w) := by
  show (boundSlots env device >>= _) w = _
  rw [st_bind_apply, boundSlots_val hd hg hs env]
  show retrieveLoop env device _ w = _
  rw [retrieveLoop_val hd hg env, specScan_filter]

/-- The credential resolution described by the amended claim C2: a supplied
credential that tests valid is used as-is; a supplied credential that fails
with `password_temporary` unset is an immediate invalid-passphrase error
with no fallback scan; otherwise (credential absent, or temporary and
invalid) the engine scans the bound slots in lexicographic (string) order
of their decimal slot numbers — `sorted()` on the parsed slot strings —
decrypting each blob and testing the decrypted secret, first success wins;
if none validates the resolution fails with the no-passphrase-retrieved
error. -/
def claimResolve (env : Env) (w : World) (d : Device) (pass : Option String) (kf temp : Bool) :
    Option String × Bool × Option String :=
  match pass with
  | some p =>
    if pureTest d (pureEff w kf p) none then (some p, kf, none)
    else if !temp then (none, false, some "Invalid passphrase for device")
    else
      match specScan env d (pySorted (d.slots.map Prod.fst)) with
      | some (_, dec) => (some dec, false, none)
      | none => (none, false, some "No passphrase retrieved")
  | none =>
    match specScan env d (pySorted (d.slots.map Prod.fst)) with
    | some (_, dec) => (some dec, false, none)
    | none => (none, false, some "No passphrase retrieved")

/-- C2 (amended): `get_valid_passphrase` implements exactly the resolution
of `claimResolve`: a supplied credential that validates is used; an invalid
supplied credential with `password_temporary` unset fails with the
invalid-passphrase error and no scan; otherwise the engine scans the bound
slots in `sorted()` string order of the slot numbers (lexicographic — which
is ascending numeric order only while all slot numbers have equally many
digits), decrypts each blob, tests each decrypted secret, uses the first
that validates, and fails with the no-passphrase-retrieved error when none
does. Stated on an initialized device (LUKS1 with its side-car store set
up, or LUKS2) with at least one occupied keyslot. -/
theorem c2_credential_resolution_amended (env : Env) (w : World) (device : String)
    (d : Device) (pass : Option String) (kf temp : Bool)
    (hd : alookup device w.devices = some d)
    (hg : (d.luksType = some "luks1" ∧ d.metaInit = true) ∨ d.luksType = some "luks2")
    (hs : d.slots ≠ []) :
    getValidPassphrase env device pass kf temp w =
      (claimResolve env w d pass kf temp, w) := by
  show (validPassphrase device pass kf none >>= _) w = _
  rw [st_bind_apply, validPassphrase_val hd pass kf none]
  cases pass with
  | none =>
    simp only [claimResolve, Option.isSome_none, Bool.and_false, Bool.false_eq_true, if_false]
    show (retrievePassphrase env device >>= _) w = _
    rw [st_bind_apply, retrievePassphrase_val hd hg hs env]
    cases hscan : specScan env d (pySorted (d.slots.map Prod.fst)) with
    | none => simp [hscan]
    | some p => cases p with | mk sl dec => simp [hscan]
  | some p =>
    cases ht : pureTest d (pureEff w kf p) none with
    | true => simp [claimResolve, ht]
    | false =>
      simp only [claimResolve, ht, if_false, Bool.false_eq_true]
      cases temp with
      | false => simp
      | true =>
        simp only [Bool.not_true]
        show (retrievePassphrase env device >>= _) w = _
        rw [st_bind_apply, retrievePassphrase_val hd hg hs env]
        cases hscan : specScan env d (pySorted (d.slots.map Prod.fst)) with
        | none => simp [hscan]
        | some q => cases q with | mk sl dec => simp [hscan]

/-- A LUKS2 device with clevis-bound keyslots 2 and 10, for the scan-order
counterexample: `sorted()` on the slot strings puts `"10"` before `"2"`. -/
def c2TestDev : Device where
  luksType := some "luks2"
  metaInit := false
  slots := [("2", "s2"), ("10", "s10")]
  meta1 := []
  tokens :=
    [(0, .obj [("type", .str "clevis"), ("keyslots", .arr [.str "2"]), ("jwe", .str "X2")]),
     (1, .obj [("type", .str "clevis"), ("keyslots", .arr [.str "10"]), ("jwe", .str "X10")])]
  keyBits := some "256"

def c2TestWorld : World := { devices := [("d", c2TestDev)], keyfiles := [], trace := [] }

/-- Slot 2's token holds the blob `JWE2` decrypting to slot 2's passphrase
`s2`; slot 10's holds `JWE10` decrypting to `s10`; both candidates
validate. -/
def c2TestEnv : Env := { envBase with
  tokenJwe := fun s => if strContainsSub s "X2" then some "JWE2"
    else if strContainsSub s "X10" then some "JWE10" else none,
  fmtJwe := fun _ x => some x,
  decrypt := fun j => if j = "JWE2" then some "s2"
    else if j = "JWE10" then some "s10" else none }

/-- C2 counterexample: with no supplied credential, the engine's fallback
scan returns slot 10's secret `s10`, although slot 2 has the lower slot
index and its bound blob decrypts to the valid secret `s2` — so the scan is
not in ascending slot-index order as the claim states (Python has sorted
the slot number strings lexicographically: "10" < "2"). -/
theorem c2_scan_order_counterexample :
    getValidPassphrase c2TestEnv "d" none false false c2TestWorld
      = ((some "s10", false, none), c2TestWorld) ∧
    (2 : Nat) < 10 ∧
    pureGetJwe c2TestEnv c2TestDev "2" = some "JWE2" ∧
    c2TestEnv.decrypt "JWE2" = some "s2" ∧
    (testPassphrase "d" (some "s2") none c2TestWorld).1 = true ∧
    ("s10" : String) ≠ "s2" :=
  ⟨rfl, by decide, rfl, rfl, rfl, by decide⟩

/-- C2 witness: the amended theorem applied in the concrete two-slot world;
the resolution equals the claimed scan, which picks slot "10" first. -/
theorem c2_credential_resolution_witness :
    getValidPassphrase c2TestEnv "d" none false false c2TestWorld
      = (claimResolve c2TestEnv c2TestWorld c2TestDev none false false, c2TestWorld) ∧
    claimResolve c2TestEnv c2TestWorld c2TestDev none false false = (some "s10", false, none) :=
  ⟨c2_credential_resolution_amended c2TestEnv c2TestWorld "d" c2TestDev none false false
      rfl (.inr rfl) (by simp [c2TestDev]),
   rfl⟩

theorem alookup_aset_eq (k : String) (v : α) :
    ∀ l : List (String × α), alookup k (aset k v l) = some v := by
  intro l
  induction l with
  | nil => simp [aset, alookup]
  | cons p rest ih =>
    by_cases h : k = p.1
    · simp [aset, alookup, h]
    · simp only [aset]
      rw [if_neg h]
      simp only [alookup]
      rw [if_neg h]
      exact ih

theorem alookup_aset_ne (k k2 : String) (v : α) (h : k ≠ k2) :
    ∀ l : List (String × α), alookup k (aset k2 v l) = alookup k l := by
  intro l
  induction l with
  | nil => simp [aset, alookup, h]
  | cons p rest ih =>
    by_cases h2 : k2 = p.1
    · simp only [aset]
      rw [if_pos h2]
      simp only [alookup]
      have hk2 : ¬ k = k2 := h
      have hkp : ¬ k = p.1 := by rw [h2] at hk2; exact hk2
      rw [if_neg hk2, if_neg hkp]
    · simp only [aset]
      rw [if_neg h2]
      simp only [alookup]
      by_cases h3 : k = p.1
      · rw [if_pos h3, if_pos h3]
      · rw [if_neg h3, if_neg h3]
        exact ih

theorem initExtends_of_eq {w w2 : World} (h : w2 = w) : initExtends w w2 := by
  rw [h]; exact initExtends_refl w

/-- The lazy side-car initialization step satisfies the init frame. -/
theorem initExtends_init_step {w : World} {device : String} {d : Device}
    (hd : alookup device w.devices = some d) (hl : d.luksType = some "luks1")
    (hm : d.metaInit = false) :
    initExtends w (logW (.luksmetaInitCmd device) (setDevW device (initDev d) w)) := by
  refine ⟨rfl, ⟨[.luksmetaInitCmd device], rfl, by simp [isInitCmd]⟩, ?_⟩
  intro p
  by_cases hp : p = device
  · subst hp
    exact .inr ⟨d, hd, hl, hm, by simp [setDevW, logW, alookup_aset_eq]⟩
  · exact .inl (by simp [setDevW, logW, alookup_aset_ne p device _ hp])

theorem getLuksType_init (b : Bool) (device : String) (w : World) :
    initExtends w ((getLuksType b device w).2) := by
  cases hd : alookup device w.devices with
  | none => exact initExtends_of_eq (by simp [getLuksType, hd])
  | some d =>
    cases hl : d.luksType with
    | none => exact initExtends_of_eq (by simp [getLuksType, hd, hl])
    | some t =>
      by_cases h1 : t = "luks1"
      · subst h1
        cases hm : d.metaInit with
        | false =>
          cases b with
          | false => exact initExtends_of_eq (by simp [getLuksType, hd, hl, hm])
          | true =>
            have : (getLuksType true device w).2
                = logW (.luksmetaInitCmd device) (setDevW device (initDev d) w) := by
              simp [getLuksType, hd, hl, hm, initDev]
            rw [this]
            exact initExtends_init_step hd hl hm
        | true => exact initExtends_of_eq (by simp [getLuksType, hd, hl, hm])
      · by_cases h2 : t = "luks2"
        · subst h2
          exact initExtends_of_eq (by simp [getLuksType, hd, hl])
        · exact initExtends_of_eq (by simp [getLuksType, hd, hl, h1, h2])

theorem getLuksType_false_world (device : String) (w : World) :
    ((getLuksType false device) w).2 = w := by
  cases hd : alookup device w.devices with
  | none => simp [getLuksType, hd]
  | some d =>
    cases hl : d.luksType with
    | none => simp [getLuksType, hd, hl]
    | some t =>
      by_cases h1 : t = "luks1"
      · subst h1; simp [getLuksType, hd, hl]
      · by_cases h2 : t = "luks2"
        · subst h2; simp [getLuksType, hd, hl]
        · simp [getLuksType, hd, hl, h1, h2]

theorem getJweLuks1_world (device slot : String) (w : World) :
    ((getJweLuks1 device slot) w).2 = w := by
  cases hd : alookup device w.devices with
  | none => simp [getJweLuks1, hd]
  | some d =>
    simp only [getJweLuks1, hd]
    split
    · rfl
    · split <;> rfl

theorem getJweLuks2_world (env : Env) (device slot : String) (w : World) :
    ((getJweLuks2 env device slot) w).2 = w := by
  cases hd : alookup device w.devices with
  | none => simp [getJweLuks2, hd]
  | some d =>
    simp only [getJweLuks2, hd]
    split
    · rfl
    · split <;> rfl

theorem getJwe_init (env : Env) (b : Bool) (device slot : String) (w : World) :
    initExtends w ((getJwe env b device slot w).2) := by
  show initExtends w (((getLuksType b device >>= _) w).2)
  rw [st_bind_apply]
  refine initExtends_trans (getLuksType_init b device w) ?_
  set w1 := (getLuksType b device w).2
  rcases (getLuksType b device w).1 with ⟨luks, err⟩
  dsimp only
  by_cases he : err.isSome
  · simp only [he, if_true]
    exact initExtends_of_eq rfl
  · simp only [he, if_false, Bool.false_eq_true]
    by_cases hl : luks = some "luks1"
    · rw [if_pos hl]
      exact initExtends_of_eq (getJweLuks1_world device slot w1)
    · rw [if_neg hl]
      rw [st_bind_apply]
      refine initExtends_trans (initExtends_of_eq (getJweLuks2_world env device slot w1)) ?_
      exact initExtends_of_eq rfl

theorem getJwe_false_world (env : Env) (device slot : String) (w : World) :
    ((getJwe env false device slot) w).2 = w := by
  show (((getLuksType false device >>= _) : St _) w).2 = w
  rw [st_bind_apply]
  rw [getLuksType_false_world device w]
  rcases (getLuksType false device w).1 with ⟨luks, err⟩
  dsimp only
  by_cases he : err.isSome
  · simp [he]
  · simp only [he, if_false, Bool.false_eq_true]
    by_cases hl : luks = some "luks1"
    · rw [if_pos hl]
      exact getJweLuks1_world device slot w
    · rw [if_neg hl]
      rw [st_bind_apply, getJweLuks2_world env device slot w]
      rfl

theorem isSlotBound_init (env : Env) (device slot : String) (w : World) :
    initExtends w ((isSlotBound env device slot w).2) := by
  show initExtends w (((getJwe env true device slot >>= _) : St _) w).2
  rw [st_bind_apply]
  refine initExtends_trans (getJwe_init env true device slot w) ?_
  rcases (getJwe env true device slot w).1 with ⟨jwe, err⟩
  cases err <;> exact initExtends_of_eq rfl

theorem testPassphrase_world (device : String) (sec : Option String) (slot : Option String)
    (w : World) : ((testPassphrase device sec slot) w).2 = w := by
  cases hd : alookup device w.devices with
  | none => simp [testPassphrase, hd]
  | some d =>
    cases sec with
    | none => simp [testPassphrase, hd]
    | some s => cases slot <;> simp [testPassphrase, hd]

theorem validPassphrase_world (device : String) (pass : Option String) (kf : Bool)
    (slot : Option String) (w : World) : ((validPassphrase device pass kf slot) w).2 = w := by
  cases pass with
  | none => rfl
  | some p =>
    show (((effectiveSecret kf p >>= _) : St _) w).2 = w
    rw [st_bind_apply]
    have : (effectiveSecret kf p w).2 = w := rfl
    rw [this]
    rw [st_bind_apply, testPassphrase_world device _ slot w]
    split <;> rfl

theorem alreadyBound_world (env : Env) (device : String) (slot : Int)
    (auth authCfg : Option String) (keySet : List String) (w : World) :
    ((alreadyBound env device slot auth authCfg keySet) w).2 = w := by
  show ((mLift (getJwe env false device (toString slot)) >>= _) w).2 = w
  apply mw_bind
  · intro w2
    exact getJwe_false_world env device (toString slot) w2
  · intro a w2
    rcases a with ⟨jweOpt, gerr⟩
    cases gerr with
    | some e => rfl
    | none =>
      cases jweOpt with
      | none => rfl
      | some jwe =>
        dsimp only
        cases hdec : decryptJwe env jwe with
        | mk dOpt eOpt =>
          cases eOpt with
          | some e2 => cases dOpt <;> rfl
          | none =>
            cases dOpt with
            | none => rfl
            | some dec =>
              show ((mLift (validPassphrase device (some dec) false (some (toString slot)))
                >>= _) w2).2 = w2
              apply mw_bind
              · intro w3
                exact validPassphrase_world device (some dec) false (some (toString slot)) w3
              · intro a2 w3
                rcases a2 with ⟨b2, verr⟩
                cases verr with
                | some e3 => rfl
                | none =>
                  cases authCfg with
                  | none => rfl
                  | some cfgStr =>
                    dsimp only
                    cases env.jsonLoads cfgStr with
                    | none => rfl
                    | some pol =>
                      show ((mExc (cleanPolicy auth pol) >>= _) w3).2 = w3
                      apply mw_bind
                      · intro w4
                        exact mExc_world (cleanPolicy auth pol) w4
                      · intro cleaned w4
                        cases decodePinConfig env recLimit (.str jwe) with
                        | error s => rfl
                        | ok r =>
                          rcases r with ⟨pin, policyOpt, keys, derr⟩
                          dsimp only
                          split <;> rfl

theorem processBindOperation_check_world (env : Env) (b : RawBinding) (w : World) :
    ((processBindOperation env true b) w).2 = w := by
  unfold processBindOperation
  cases b.servers with
  | none => cases b.threshold <;> rfl
  | some servers =>
    cases b.threshold with
    | none => rfl
    | some threshold =>
      dsimp only
      cases hg : generateConfig env servers threshold with
      | mk auth rest =>
        rcases rest with ⟨cfg, keys, errOpt⟩
        cases errOpt with
        | some e => rfl
        | none =>
          dsimp only
          cases b.device with
          | none => cases b.slot <;> cases b.password_temporary <;> rfl
          | some device =>
            cases b.slot with
            | none => cases b.password_temporary <;> rfl
            | some slot =>
              cases b.password_temporary with
              | none => rfl
              | some pwTemp =>
                show ((alreadyBound env device slot auth cfg keys >>= _) w).2 = w
                apply mw_bind
                · intro w2
                  exact alreadyBound_world env device slot auth cfg keys w2
                · intro ab w2
                  cases ab <;> rfl

theorem processBindingsStep_check_init (env : Env) (orig : List RawBinding) (b : RawBinding)
    (acc : RunResult) (w : World) :
    initExtends w ((processBindingsStep env true orig b acc w).2) := by
  unfold processBindingsStep
  cases b.state with
  | none => exact initExtends_of_eq rfl
  | some st =>
    dsimp only
    by_cases habs : st == "absent"
    · rw [if_pos habs]
      cases b.device with
      | none => cases b.slot <;> exact initExtends_of_eq rfl
      | some device =>
        cases b.slot with
        | none => exact initExtends_of_eq rfl
        | some slot =>
          show initExtends w (((mLift (isSlotBound env device (toString slot)) >>= _) w).2)
          refine mi_bind ?_ ?_ w
          · intro w2
            exact isSlotBound_init env device (toString slot) w2
          · intro a w2
            rcases a with ⟨b2, err⟩
            cases err <;> exact initExtends_of_eq rfl
    · rw [if_neg habs]
      show initExtends w (((processBindOperation env true b >>= _) w).2)
      refine mi_bind ?_ ?_ w
      · intro w2
        exact initExtends_of_eq (processBindOperation_check_world env b w2)
      · intro a w2
        rcases a with ⟨changed, perr⟩
        cases perr with
        | some e => exact initExtends_of_eq rfl
        | none => cases changed <;> exact initExtends_of_eq rfl

theorem processBindingsLoop_check_init (env : Env) (orig : List RawBinding) :
    ∀ (bs : List RawBinding) (acc : RunResult) (w : World),
    initExtends w ((processBindingsLoop env true orig bs acc w).2) := by
  intro bs
  induction bs with
  | nil => intro acc w; exact initExtends_of_eq rfl
  | cons b rest ih =>
    intro acc w
    show initExtends w (((processBindingsStep env true orig b acc >>= _) w).2)
    refine mi_bind ?_ ?_ w
    · intro w2
      exact processBindingsStep_check_init env orig b acc w2
    · intro out w2
      cases out with
      | cont r2 => exact ih r2 w2
      | stop r2 => exact initExtends_of_eq rfl

/-- A bindings-list entry with only `device` and `state` set, as a playbook
would pass for an unbind. -/
def c4Binding : RawBinding :=
  { device := some "d0", state := some "absent", slot := none, threshold := none,
    password_temporary := none, servers := none, encryption_password := none,
    encryption_key := none, encryption_key_src := none }

/-- A LUKS1 device with one occupied keyslot and no LUKSMeta store yet. -/
def c4Dev : Device :=
  { luksType := some "luks1", metaInit := false, slots := [("1", "p")], meta1 := [],
    tokens := [], keyBits := none }

def c4World : World := { devices := [("d0", c4Dev)], keyfiles := [], trace := [] }

/-- Plain `os.path` operations (identity basename/quote, `/`-joined paths). -/
def osId : OsOps :=
  { basename := fun s => s, joinPath := fun a b => a ++ "/" ++ b, quote := fun s => s }

/-- `c4Binding` after the confidence check fills the defaults in place. -/
def c4BindingNorm : RawBinding :=
  { c4Binding with slot := some 1, threshold := some 1,
                   password_temporary := some false, servers := some [] }

/-- C4, counterexample to the original claim: a check-mode run over a single
`state: absent` binding on a LUKS1 device whose LUKSMeta side-car store is
uninitialized reports `changed: false` — yet its trace contains the mutating
command `luksmeta init -f d0`, issued by the lazy store initialization inside
the read path (`get_luks_type` with `initialize=True`, reached from
`is_slot_bound`). So check mode does not perform only read-side evaluation;
it can write to a device. -/
theorem c4_check_mode_counterexample :
    (runModule envBase osId (some [c4Binding]) none true c4World).1
      = .ok { failed := false, msg := none, changed := some false,
              original_bindings := some [c4BindingNorm] } ∧
    ((runModule envBase osId (some [c4Binding]) none true c4World).2).trace
      = [Cmd.luksmetaInitCmd "d0"] :=
  ⟨rfl, rfl⟩

/-- C4 (amended): in check (dry-run) mode, for every bindings input, the
run's only effect on any device is the lazy LUKSMeta side-car
initialization of uninitialized LUKS1 devices: every traced command is a
`luksmeta init`, keyslot passphrases, metadata entries of initialized
stores, LUKS2 tokens and key files are all untouched (the `initExtends`
frame). The engine reports a single aggregate changed flag and returns at
the first binding that would change, so it does not report per-binding
change status. -/
theorem c4_check_mode_amended (env : Env) (os : OsOps) (raw : Option (List RawBinding))
    (dataDir : Option String) (w : World) :
    initExtends w ((runModule env os raw dataDir true w).2) := by
  unfold runModule
  cases hcc : bindingsConfidenceCheck os raw dataDir true with
  | mk res rest =>
    rcases rest with ⟨errOpt, mutated⟩
    cases errOpt with
    | some e => cases res <;> exact initExtends_of_eq rfl
    | none =>
      cases res with
      | none => exact initExtends_of_eq rfl
      | some bs =>
        dsimp only
        have hloop := processBindingsLoop_check_init env bs bs
          { changed := false, original_bindings := bs } w
        cases hp : processBindings env true bs w with
        | mk r w2 =>
          have hw2 : initExtends w w2 := by
            rw [processBindings] at hp
            rw [hp] at hloop
            exact hloop
          cases r with
          | ok rr => exact hw2
          | raised e2 => exact hw2
          | crash s => exact hw2

/-- `c4Dev` after the lazy LUKSMeta store initialization. -/
def c4DevInit : Device := { c4Dev with metaInit := true, meta1 := [] }

/-- `c4World` after `luksmeta init -f d0`. -/
def c4WorldInit : World :=
  { devices := [("d0", c4DevInit)], keyfiles := [], trace := [Cmd.luksmetaInitCmd "d0"] }

theorem processBindingsStep_absent_unbound (env : Env) (cm : Bool) (orig : List RawBinding)
    (b : RawBinding) (acc : RunResult) (device : String) (slot : Int) (e : String) (b2 : Bool)
    (w w2 : World)
    (hst : b.state = some "absent") (hdev : b.device = some device)
    (hslot : b.slot = some slot)
    (hbound : isSlotBound env device (toString slot) w = ((b2, some e), w2)) :
    processBindingsStep env cm orig b acc w = (.ok (.cont acc), w2) := by
  simp only [processBindingsStep, hst, hdev, hslot]
  have habs : ("absent" == "absent") = true := rfl
  rw [if_pos habs]
  rw [m_bind_ok _ (show mLift (isSlotBound env device (toString slot)) w
        = (.ok (b2, some e), w2) by simp only [mLift, hbound])]
  rfl

/-- C7 (amended): for every binding with state `absent` whose slot is not
currently clevis-bound (`is_slot_bound` reports an error), in both modes the
loop leaves the result dict untouched — the changed flag is not set by that
binding and the remaining bindings are processed from where it left off — so
the binding is treated as already satisfied; but the slot-bound probe itself
is not purely read-side: on a LUKS1 device with an uninitialized LUKSMeta
side-car store it issues the mutating `luksmeta init -f` (the `initExtends`
frame is all it can change, rather than the claimed zero mutating calls). -/
theorem c7_absent_unbound_amended (env : Env) (cm : Bool) (orig rest : List RawBinding)
    (b : RawBinding) (device : String) (slot : Int) (acc : RunResult) (e : String)
    (b2 : Bool) (w w2 : World)
    (hst : b.state = some "absent") (hdev : b.device = some device)
    (hslot : b.slot = some slot)
    (hbound : isSlotBound env device (toString slot) w = ((b2, some e), w2)) :
    processBindingsLoop env cm orig (b :: rest) acc w
      = processBindingsLoop env cm orig rest acc w2 ∧
    initExtends w w2 := by
  constructor
  · show (processBindingsStep env cm orig b acc >>= _) w = _
    rw [m_bind_ok _ (processBindingsStep_absent_unbound env cm orig b acc device slot e b2
          w w2 hst hdev hslot hbound)]
  · have h := isSlotBound_init env device (toString slot) w
    rw [hbound] at h
    exact h

theorem c7_absent_unbound_witness :
    processBindingsLoop envBase false [c4BindingNorm] (c4BindingNorm :: [])
        { changed := false, original_bindings := [c4BindingNorm] } c4World
      = processBindingsLoop envBase false [c4BindingNorm] []
        { changed := false, original_bindings := [c4BindingNorm] } c4WorldInit ∧
    initExtends c4World c4WorldInit :=
  c7_absent_unbound_amended envBase false [c4BindingNorm] [] c4BindingNorm "d0" 1
    { changed := false, original_bindings := [c4BindingNorm] }
    "get_jwe_luks1: d0:1 not clevis-bound" false c4World c4WorldInit rfl rfl rfl rfl

/-- C7, counterexample to the original claim: in normal (non-check) mode, a
single `state: absent` binding whose slot is not clevis-bound is reported
unchanged — treated as already satisfied — yet the run issues the mutating
command `luksmeta init -f d0` on the device, because the `is_slot_bound`
probe reaches the lazy LUKSMeta store initialization of `get_luks_type`.
The original claim promised zero mutating external operations for such a
binding. -/
theorem c7_absent_unbound_counterexample :
    (runModule envBase osId (some [c4Binding]) none false c4World).1
      = .ok { failed := false, msg := none, changed := some false,
              original_bindings := some [c4BindingNorm] } ∧
    ((runModule envBase osId (some [c4Binding]) none false c4World).2).trace
      = [Cmd.luksmetaInitCmd "d0"] :=
  ⟨rfl, rfl⟩

/-- Once the `process_bindings` loop raises `NbdeClientClevisError` on some
prefix of the list, appending further bindings changes nothing: they are
never processed and the raised outcome (error payload and world) is
identical. -/
theorem processBindingsLoop_raised_append (env : Env) (cm : Bool) (orig : List RawBinding)
    (e : ErrPayload) (w2 : World) :
    ∀ (pre : List RawBinding) (acc : RunResult) (w : World),
    processBindingsLoop env cm orig pre acc w = (.raised e, w2) →
    ∀ post, processBindingsLoop env cm orig (pre ++ post) acc w = (.raised e, w2) := by
  intro pre
  induction pre with
  | nil =>
    intro acc w h post
    simp only [processBindingsLoop, m_pure_apply] at h
    injection h with h1 h2
    exact Res.noConfusion h1
  | cons b rest ih =>
    intro acc w h post
    have hL : processBindingsLoop env cm orig (b :: rest) acc w
        = (processBindingsStep env cm orig b acc >>= fun out =>
            match out with
            | .cont r2 => processBindingsLoop env cm orig rest r2
            | .stop r2 => pure r2) w := rfl
    rw [hL, m_bind_apply] at h
    show (processBindingsStep env cm orig b acc >>= fun out =>
            match out with
            | .cont r2 => processBindingsLoop env cm orig (rest ++ post) r2
            | .stop r2 => pure r2) w = (.raised e, w2)
    rw [m_bind_apply]
    cases hs : processBindingsStep env cm orig b acc w with
    | mk r wp =>
      rw [hs] at h
      cases r with
      | ok out =>
        cases out with
        | cont r2 => exact ih r2 wp h post
        | stop r2 =>
          simp only [m_pure_apply] at h
          injection h with h1 h2
          exact Res.noConfusion h1
      | raised e2 => exact h
      | crash s => injection h with h1 h2; exact Res.noConfusion h1

/-- A LUKS2 token carrying a clevis binding for keyslot 1. -/
def c5Token : Json := Json.obj [("type", .str "clevis"), ("keyslots", .arr [.str "1"])]

/-- A LUKS2 device that still has the clevis token for slot 1 but whose
keyslot 1 is gone, so `cryptsetup luksKillSlot` fails on unbind. -/
def c5Dev : Device :=
  { luksType := some "luks2", metaInit := false, slots := [], meta1 := [],
    tokens := [(0, c5Token)], keyBits := none }

def c5World : World := { devices := [("e0", c5Dev)], keyfiles := [], trace := [] }

/-- Tools for the unbind probe: token export and `jose jwe fmt` succeed. -/
def c5Env : Env :=
  { envBase with tokenJwe := fun _ => some "JO", fmtJwe := fun _ _ => some "JWE" }

/-- An unbind request for slot 1 of `e0`, already normalized. -/
def c5Binding : RawBinding :=
  { device := some "e0", state := some "absent", slot := some 1, threshold := some 1,
    password_temporary := some false, servers := some [], encryption_password := none,
    encryption_key := none, encryption_key_src := none }

/-- C5: the engine processes the bindings list strictly in input order (the
loop consumes it head first), and the first binding whose unbind or bind
fails raises `NbdeClientClevisError`, which aborts every subsequent binding
in the run — appending any `post` list after the failing prefix yields the
identical raised outcome, `post` untouched — and `run_module` catches the
error and surfaces it as a failure result carrying the error message and the
(redacted) original bindings list. -/
theorem c5_fail_fast (env : Env) (os : OsOps) (cm : Bool) (raw : Option (List RawBinding))
    (dataDir : Option String) (pre post : List RawBinding) (mutL : Option (List RawBinding))
    (e : ErrPayload) (w w2 : World)
    (hcc : bindingsConfidenceCheck os raw dataDir cm = (some (pre ++ post), none, mutL))
    (hpre : processBindingsLoop env cm (pre ++ post) pre
        { changed := false, original_bindings := pre ++ post } w = (.raised e, w2)) :
    processBindings env cm (pre ++ post) w = (.raised e, w2) ∧
    runModule env os raw dataDir cm w
      = (.ok { failed := true, msg := some e.msg, changed := none,
               original_bindings := some (obscureBindings (pre ++ post)) }, w2) := by
  have hp : processBindings env cm (pre ++ post) w = (.raised e, w2) := by
    rw [processBindings]
    exact processBindingsLoop_raised_append env cm (pre ++ post) e w2 pre _ w hpre post
  refine ⟨hp, ?_⟩
  simp only [runModule, hcc, hp]

theorem c5_fail_fast_witness :
    processBindings c5Env false ([c5Binding] ++ [c4BindingNorm]) c5World
      = (.raised { msg := .plain "luksKillSlot failed",
                   original_bindings := some ([c5Binding] ++ [c4BindingNorm]) }, c5World) ∧
    runModule c5Env osId (some ([c5Binding] ++ [c4BindingNorm])) none false c5World
      = (.ok { failed := true, msg := some (ErrMsg.plain "luksKillSlot failed"), changed := none,
               original_bindings := some (obscureBindings ([c5Binding] ++ [c4BindingNorm])) },
         c5World) :=
  c5_fail_fast c5Env osId false (some ([c5Binding] ++ [c4BindingNorm])) none
    [c5Binding] [c4BindingNorm] (some ([c5Binding] ++ [c4BindingNorm]))
    { msg := .plain "luksKillSlot failed",
      original_bindings := some ([c5Binding] ++ [c4BindingNorm]) }
    c5World c5World rfl rfl

end NbdeClevis
